import Mathlib

/-!
# usbcat: the asynchronous transfer loop of `client/usbcat.c`

A shallow embedding of the two completion callbacks (`xfer_in_done`,
`xfer_out_done`), of `crash`, and of the part of `main` that starts the IN
transfer and runs the `select` loop.  The process is a value of type `World`
(the C globals and the objects `main` keeps across iterations, the set of
transfers the transport holds, and the trace of the calls the process made).
Everything the outside decides (return values of `write`, `read`, `select`,
`libusb_submit_transfer`, the completions the transport dispatches) is
supplied as explicit arguments, one `IterEnv` for each turn of the loop.

C `int` values are `Int`; bytes and byte counts, which are never negative,
are `Nat`.  The only arithmetic of this part of the program is `maxfd + 1` on
a file descriptor, which cannot overflow.
-/

namespace Usbcat

/-- Values of `enum libusb_transfer_status` (libusb.h), in declaration order. -/
inductive libusb_transfer_status where
  | LIBUSB_TRANSFER_COMPLETED
  | LIBUSB_TRANSFER_ERROR
  | LIBUSB_TRANSFER_TIMED_OUT
  | LIBUSB_TRANSFER_CANCELLED
  | LIBUSB_TRANSFER_STALL
  | LIBUSB_TRANSFER_NO_DEVICE
  | LIBUSB_TRANSFER_OVERFLOW
  deriving DecidableEq, Repr

open libusb_transfer_status

/-- Numeric value of a transfer status, as printed by the `%d` of `crash`. -/
def libusb_transfer_status.code : libusb_transfer_status → Int
  | LIBUSB_TRANSFER_COMPLETED => 0
  | LIBUSB_TRANSFER_ERROR => 1
  | LIBUSB_TRANSFER_TIMED_OUT => 2
  | LIBUSB_TRANSFER_CANCELLED => 3
  | LIBUSB_TRANSFER_STALL => 4
  | LIBUSB_TRANSFER_NO_DEVICE => 5
  | LIBUSB_TRANSFER_OVERFLOW => 6

/-- The two transfer objects `main` allocates: `xfr` (IN) and `oxfr` (OUT).
A value of this type stands for the pointer to the object. -/
inductive XferObj where
  | xfr
  | oxfr
  deriving DecidableEq, Repr

/-- The two completion callbacks a transfer can carry. -/
inductive Callback where
  | xfer_in_done
  | xfer_out_done
  deriving DecidableEq, Repr

/-- The fields of `struct libusb_transfer` the program uses.  `buffer` is the
content of the memory the buffer pointer designates; `obj` is the identity of
the object.  `dev_handle`, `user_data` (NULL) and `timeout` (0) never vary. -/
structure libusb_transfer where
  obj : XferObj
  endpoint : Nat
  buffer : List Nat
  length : Nat
  callback : Option Callback
  status : libusb_transfer_status
  actual_length : Nat
  deriving DecidableEq, Repr

/-- The two fields of an endpoint descriptor that `main` reads. -/
structure libusb_endpoint_descriptor where
  bEndpointAddress : Nat
  wMaxPacketSize : Nat
  deriving DecidableEq, Repr

/-- One entry of the transport's poll set: `struct libusb_pollfd`. -/
structure libusb_pollfd where
  fd : Int
  events : Nat
  deriving DecidableEq, Repr

/-- Calls the process makes on the outside world, in program order. -/
inductive Event where
  /-- A `write(fd, buf, count)`: the `count` bytes offered and the return value. -/
  | write (fd : Int) (bytes : List Nat) (ret : Int)
  /-- A `read(fd, obuf, count)`: the return value and the bytes stored. -/
  | read (fd : Int) (count : Nat) (ret : Int) (bytes : List Nat)
  /-- A line on the diagnostic stream: format string and numeric arguments. -/
  | diag (fmt : String) (args : List Int)
  /-- A `libusb_submit_transfer(t)`: the object as submitted, the value of
  `out_xfr_pending` at the time of the call, and the return value. -/
  | submit (t : libusb_transfer) (pending : Int) (ret : Int)
  /-- A `libusb_cancel_transfer` on one of the two objects. -/
  | cancel (o : XferObj)
  /-- A `select(nfds, rfds, wfds, NULL, timeout)` and its return value. -/
  | select (nfds : Int) (rfds wfds : List Int) (timeout : Option (Int × Int)) (n : Int)
  /-- The exit handler `exit_device`. -/
  | libusb_close
  /-- The exit handler `exit_libusb`. -/
  | libusb_exit
  deriving DecidableEq, Repr

/-- State of the process. -/
structure World where
  /-- The global `out_xfr_pending`. -/
  out_xfr_pending : Int
  /-- Content of the memory `obuf` points to. -/
  obuf : List Nat
  /-- The object `xfr` points to. -/
  xfr : libusb_transfer
  /-- The object `oxfr` points to. -/
  oxfr : libusb_transfer
  /-- Transfers submitted to the transport and not yet completed. -/
  in_flight : List XferObj
  /-- Calls made so far. -/
  trace : List Event
  /-- Exit status, once the process has terminated. -/
  exit_status : Option Int
  deriving DecidableEq, Repr

/-- What the set-up part of `main` hands to the loop. -/
structure Config where
  iep : libusb_endpoint_descriptor
  oep : libusb_endpoint_descriptor
  nostdin : Int
  deriving DecidableEq, Repr

/-- A completion the transport dispatches: which object completes, the status
and `actual_length` it stores there, the bytes the device put at the start of
the buffer (none for an OUT transfer), and the return values of the `write`
and of the `libusb_submit_transfer` the callback may perform. -/
structure Completion where
  obj : XferObj
  status : libusb_transfer_status
  actual_length : Nat
  data : List Nat
  write_ret : Int
  submit_ret : Int
  deriving DecidableEq, Repr

/-- Outcome of a `select`: return value, `errno` when it is negative, and the
descriptors the kernel finds readable and writable. -/
structure SelectResult where
  n : Int
  errno : Int
  readable : List Int
  writable : List Int
  deriving DecidableEq, Repr

/-- Outcome of a `read` of the host input: an error, or the bytes the stream
holds at that moment (none at end of stream). -/
inductive ReadResult where
  | error
  | bytes (bs : List Nat)
  deriving DecidableEq, Repr

/-- Everything the outside decides during one turn of the loop. -/
structure IterEnv where
  /-- Return value of `libusb_get_next_timeout`. -/
  to_ : Int
  /-- The `timeval` it fills. -/
  tv : Int × Int
  /-- The list `libusb_get_pollfds` returns. -/
  pollfds : List libusb_pollfd
  sel : SelectResult
  /-- Completions `libusb_handle_events_timeout` dispatches. -/
  completions : List Completion
  stdin : ReadResult
  /-- Return value of the `libusb_submit_transfer` of the OUT transfer. -/
  submit_ret : Int
  deriving DecidableEq, Repr

/-- Control leaving the loop body: `continue` (or the end of the body), or
`break`. -/
inductive Ctl where
  | continue_
  | break_
  deriving DecidableEq, Repr

/-- The descriptor `fileno(stdin)`. -/
def STDIN_FILENO : Int := 0

/-- The descriptor `fileno(stdout)`. -/
def STDOUT_FILENO : Int := 1

/-- The `errno` value of an interrupted system call (errno.h). -/
def EINTR : Int := 4

/-- The poll event bit for readable data (poll.h). -/
def POLLIN : Nat := 1

/-- The poll event bit for writable (poll.h). -/
def POLLOUT : Nat := 4

/-- The macro `FD_ZERO`: the empty descriptor set. -/
def FD_ZERO : List Int := []

/-- The macro `FD_SET(fd, set)`. -/
def FD_SET (fd : Int) (set : List Int) : List Int := fd :: set

/-- The macro `FD_ISSET(fd, set)`. -/
def FD_ISSET (fd : Int) (set : List Int) : Bool := decide (fd ∈ set)

/-- The call `libusb_alloc_transfer(0)`: a zeroed transfer object. -/
def libusb_alloc_transfer (o : XferObj) : libusb_transfer :=
  { obj := o, endpoint := 0, buffer := [], length := 0, callback := none,
    status := LIBUSB_TRANSFER_COMPLETED, actual_length := 0 }

/-- The call `malloc(n)`: `n` bytes (their content is indeterminate in C; zero here). -/
def malloc (n : Nat) : List Nat := List.replicate n 0

/-- The helper `libusb_fill_bulk_transfer`: sets endpoint, buffer, length and
callback. -/
def libusb_fill_bulk_transfer (t : libusb_transfer) (endpoint : Nat) (buffer : List Nat)
    (length : Nat) (cb : Callback) : libusb_transfer :=
  { t with endpoint := endpoint, buffer := buffer, length := length, callback := some cb }

/-- The call `exit(status)`, also the return from `main`: the handlers
registered with `atexit` run in reverse order of registration (`exit_device`,
then `exit_libusb`) and the process ends. -/
def exit (status : Int) (w : World) : World :=
  { w with trace := w.trace ++ [Event.libusb_close, Event.libusb_exit],
           exit_status := some status }

/-- The function `crash(fmt, ...)`: one line on the diagnostic stream, then
`exit(1)`.  The `strerror(errno)` suffix of the line is not represented. -/
def crash (fmt : String) (args : List Int) (w : World) : World :=
  exit 1 { w with trace := w.trace ++ [Event.diag fmt args] }

/-- The call `write(fd, buf, count)` returning `ret`. -/
def write (fd : Int) (buf : List Nat) (count : Nat) (ret : Int) (w : World) : World :=
  { w with trace := w.trace ++ [Event.write fd (buf.take count) ret] }

/-- The call `libusb_submit_transfer(t)` returning `ret`: the transfer is in
flight when the transport accepts it (`ret` not negative). -/
def libusb_submit_transfer (ret : Int) (t : libusb_transfer) (w : World) : World :=
  { w with trace := w.trace ++ [Event.submit t w.out_xfr_pending ret],
           in_flight := if 0 ≤ ret then w.in_flight ++ [t.obj] else w.in_flight }

/-- The call `libusb_cancel_transfer(o)`: an asynchronous request; the
transfer, if in flight, stays so until its completion is dispatched. -/
def libusb_cancel_transfer (o : XferObj) (w : World) : World :=
  { w with trace := w.trace ++ [Event.cancel o] }

/-- Lines 124-126: the resubmission at the end of `xfer_in_done`. -/
def xfer_in_done_submit (submit_ret : Int) (xfr : libusb_transfer) (w : World) : World :=
  let w1 := libusb_submit_transfer submit_ret xfr w
  if submit_ret < 0 then crash "libusb_submit_transfer (IN): %s" [submit_ret] w1 else w1

/-- The callback `xfer_in_done(xfr)`; `write_ret` and `submit_ret` are what
`write` and `libusb_submit_transfer` return if the callback calls them.  The
last three cases are the `default` of the `switch`. -/
def xfer_in_done (write_ret submit_ret : Int) (xfr : libusb_transfer) (w : World) : World :=
  match xfr.status with
  | LIBUSB_TRANSFER_COMPLETED =>
    let w1 := write STDOUT_FILENO xfr.buffer xfr.actual_length write_ret w
    if write_ret < (xfr.actual_length : Int) then crash "Short write on stdout" [] w1
    else xfer_in_done_submit submit_ret xfr w1
  | LIBUSB_TRANSFER_TIMED_OUT => xfer_in_done_submit submit_ret xfr w
  | LIBUSB_TRANSFER_NO_DEVICE => crash "Device disconnected." [] w
  | LIBUSB_TRANSFER_OVERFLOW => crash "Device sent more data than requested." [] w
  | LIBUSB_TRANSFER_ERROR => crash "Unexpected status in xfer done: %d" [xfr.status.code] w
  | LIBUSB_TRANSFER_CANCELLED => crash "Unexpected status in xfer done: %d" [xfr.status.code] w
  | LIBUSB_TRANSFER_STALL => crash "Unexpected status in xfer done: %d" [xfr.status.code] w

/-- The callback `xfer_out_done(xfr)`.  The last three cases are the
`default` of the `switch`. -/
def xfer_out_done (xfr : libusb_transfer) (w : World) : World :=
  match xfr.status with
  | LIBUSB_TRANSFER_COMPLETED => { w with out_xfr_pending := 0 }
  | LIBUSB_TRANSFER_CANCELLED => { w with out_xfr_pending := 0 }
  | LIBUSB_TRANSFER_TIMED_OUT =>
    { w with trace := w.trace ++ [Event.diag "transfer OUT timeout" []], out_xfr_pending := 0 }
  | LIBUSB_TRANSFER_NO_DEVICE => crash "Device disconnected." [] w
  | LIBUSB_TRANSFER_ERROR => crash "Unexpected status in xfer done: %d" [xfr.status.code] w
  | LIBUSB_TRANSFER_STALL => crash "Unexpected status in xfer done: %d" [xfr.status.code] w
  | LIBUSB_TRANSFER_OVERFLOW => crash "Unexpected status in xfer done: %d" [xfr.status.code] w

/-- The object a pointer designates. -/
def World.get (w : World) : XferObj → libusb_transfer
  | XferObj.xfr => w.xfr
  | XferObj.oxfr => w.oxfr

/-- Store into the object a pointer designates. -/
def World.set (w : World) (o : XferObj) (t : libusb_transfer) : World :=
  match o with
  | XferObj.xfr => { w with xfr := t }
  | XferObj.oxfr => { w with oxfr := t }

/-- What the transport stores in a transfer object when it completes. -/
def fill_completed (c : Completion) (t : libusb_transfer) : libusb_transfer :=
  { t with status := c.status, actual_length := c.actual_length,
           buffer := c.data ++ t.buffer.drop c.data.length }

/-- The transport completes one transfer: the object leaves the in-flight set,
receives status, `actual_length` and the device's bytes, and its callback is
called with it. -/
def complete (c : Completion) (w : World) : World :=
  let t := fill_completed c (w.get c.obj)
  let w1 := { w.set c.obj t with in_flight := w.in_flight.erase c.obj }
  match t.callback with
  | some Callback.xfer_in_done => xfer_in_done c.write_ret c.submit_ret t w1
  | some Callback.xfer_out_done => xfer_out_done t w1
  | none => w1

/-- The call `libusb_handle_events_timeout(NULL, &zero_tv)` (and
`libusb_handle_events`): the callbacks of the completed transfers run one
after the other, as long as the process lives. -/
def libusb_handle_events_timeout : List Completion → World → World
  | [], w => w
  | c :: cs, w =>
    if w.exit_status.isSome then w else libusb_handle_events_timeout cs (complete c w)

/-- Lines 289-295 of `main`: allocate and fill the IN transfer, submit it.
The OUT object, which `main` allocates just before the loop, is present in the
state from the beginning as a zeroed object. -/
def start (cfg : Config) (submit_ret : Int) : World :=
  let xfr := libusb_fill_bulk_transfer (libusb_alloc_transfer XferObj.xfr)
    cfg.iep.bEndpointAddress (malloc cfg.iep.wMaxPacketSize) cfg.iep.wMaxPacketSize
    Callback.xfer_in_done
  let w0 : World :=
    { out_xfr_pending := 0, obuf := [], xfr := xfr, oxfr := libusb_alloc_transfer XferObj.oxfr,
      in_flight := [], trace := [], exit_status := none }
  let w1 := libusb_submit_transfer submit_ret xfr w0
  if submit_ret < 0 then crash "libusb_submit_transfer (IN): %s" [submit_ret] w1 else w1

/-- The descriptor sets and `maxfd` built at the top of the loop body. -/
structure FdSets where
  rfds : List Int
  wfds : List Int
  maxfd : Int
  deriving DecidableEq, Repr

/-- Lines 314-319: clear both sets, `maxfd = fileno(stdin)`, and register the
host input for reading when no OUT transfer is pending. -/
def init_fds (out_xfr_pending : Int) : FdSets :=
  { rfds := if out_xfr_pending = 0 then FD_SET STDIN_FILENO FD_ZERO else FD_ZERO,
    wfds := FD_ZERO,
    maxfd := STDIN_FILENO }

/-- Lines 322-329: the loop over the transport's poll set. -/
def add_pollfds : List libusb_pollfd → FdSets → FdSets
  | [], s => s
  | p :: ps, s =>
    let s1 := if p.events &&& POLLIN ≠ 0 then { s with rfds := FD_SET p.fd s.rfds } else s
    let s2 := if p.events &&& POLLOUT ≠ 0 then { s1 with wfds := FD_SET p.fd s1.wfds } else s1
    let s3 := if s2.maxfd < p.fd then { s2 with maxfd := p.fd } else s2
    add_pollfds ps s3

/-- Lines 314-330. -/
def build_fds (out_xfr_pending : Int) (pollfds : List libusb_pollfd) : FdSets :=
  add_pollfds pollfds (init_fds out_xfr_pending)

/-- What `select` leaves in a descriptor set.  On success the registered
descriptors that are ready remain.  On failure (a negative return value, which
includes `EINTR`) the set is not modified, as POSIX specifies for `select`. -/
def select_set (r : SelectResult) (set ready : List Int) : List Int :=
  if r.n < 0 then set else set.filter (fun fd => decide (fd ∈ ready))

/-- The call `select(nfds, &rfds, &wfds, NULL, timeout)`: returns `n` and
the sets. -/
def select (nfds : Int) (s : FdSets) (timeout : Option (Int × Int)) (r : SelectResult)
    (w : World) : FdSets × World :=
  ({ s with rfds := select_set r s.rfds r.readable, wfds := select_set r s.wfds r.writable },
   { w with trace := w.trace ++ [Event.select nfds s.rfds s.wfds timeout r.n] })

/-- The call `read(fileno(stdin), obuf, count)`: returns the number of bytes
stored at the start of `obuf`, or -1. -/
def read (count : Nat) (r : ReadResult) (w : World) : Int × World :=
  match r with
  | ReadResult.error =>
    (-1, { w with trace := w.trace ++ [Event.read STDIN_FILENO count (-1) []] })
  | ReadResult.bytes bs =>
    let got := bs.take count
    ((got.length : Int),
     { w with obuf := got ++ w.obuf.drop got.length,
              trace := w.trace ++ [Event.read STDIN_FILENO count (got.length : Int) got] })

/-- Lines 311-339: build the sets, wait, dispatch the transport's events.
Returns the read set as `select` left it. -/
def wait_and_dispatch (e : IterEnv) (w : World) : List Int × World :=
  let s := build_fds w.out_xfr_pending e.pollfds
  let (s1, w1) := select (s.maxfd + 1) s (if e.to_ ≠ 0 then some e.tv else none) e.sel w
  if e.sel.n < 0 ∧ e.sel.errno ≠ EINTR then (s1.rfds, crash "select" [] w1)
  else (s1.rfds, libusb_handle_events_timeout e.completions w1)

/-- Lines 345-355: read the host input and submit what was read. -/
def pump (cfg : Config) (e : IterEnv) (w : World) : Ctl × World :=
  let (l, w1) := read cfg.oep.wMaxPacketSize e.stdin w
  if l < 0 then (Ctl.continue_, crash "read stdin" [] w1)
  else if l = 0 then (Ctl.break_, w1)
  else
    let oxfr := libusb_fill_bulk_transfer w1.oxfr cfg.oep.bEndpointAddress w1.obuf l.toNat
      Callback.xfer_out_done
    let w2 := { w1 with oxfr := oxfr, out_xfr_pending := 1 }
    let w3 := libusb_submit_transfer e.submit_ret oxfr w2
    if e.submit_ret < 0 then
      (Ctl.continue_, crash "libusb_submit_transfer (OUT): %s" [e.submit_ret] w3)
    else (Ctl.continue_, w3)

/-- Lines 311-355: one turn of the `for (;;)` loop of the bidirectional mode. -/
def loop_body (cfg : Config) (e : IterEnv) (w : World) : Ctl × World :=
  let (rfds, w1) := wait_and_dispatch e w
  if w1.exit_status.isSome then (Ctl.continue_, w1)
  else if ¬ FD_ISSET STDIN_FILENO rfds then (Ctl.continue_, w1)
  else pump cfg e w1

/-- Lines 358-363: after the loop, cancel both transfers and return 0. -/
def after_loop (w : World) : World :=
  exit 0 (libusb_cancel_transfer XferObj.xfr (libusb_cancel_transfer XferObj.oxfr w))

/-- Lines 310-363: the loop of the bidirectional mode, one `IterEnv` for each
turn.  When the list is used up the loop is still running and the state
reached is returned. -/
def main_loop (cfg : Config) : List IterEnv → World → World
  | [], w => w
  | e :: es, w =>
    if w.exit_status.isSome then w
    else
      match loop_body cfg e w with
      | (Ctl.break_, w1) => after_loop w1
      | (Ctl.continue_, w1) => main_loop cfg es w1

/-- Lines 299-300: the loop of the inbound-only mode. -/
def inbound_loop : List IterEnv → World → World
  | [], w => w
  | e :: es, w =>
    if w.exit_status.isSome then w
    else inbound_loop es (libusb_handle_events_timeout e.completions w)

/-- Lines 288-363 of `main`. -/
def main (cfg : Config) (submit_ret : Int) (script : List IterEnv) : World :=
  let w := start cfg submit_ret
  if w.exit_status.isSome then w
  else if cfg.nostdin ≠ 0 then inbound_loop script w
  else main_loop cfg script { w with obuf := malloc cfg.oep.wMaxPacketSize }

/-- Bytes that reached the host output stream: for each `write` on it, the
bytes offered, up to the count the call accepted. -/
def host_output : List Event → List Nat
  | [] => []
  | Event.write fd bytes ret :: evs =>
    (if fd = STDOUT_FILENO then bytes.take ret.toNat else []) ++ host_output evs
  | _ :: evs => host_output evs

/-- One IN completion handed to `xfer_in_done`: the transfer object as the
transport filled it, and the return values of the `write` and of the
`libusb_submit_transfer` the callback may perform. -/
structure InCompletion where
  xfr : libusb_transfer
  write_ret : Int
  submit_ret : Int
  deriving DecidableEq, Repr

/-- A sequence of IN completions: `xfer_in_done` is called for each in turn,
as long as the process lives. -/
def deliver_in : List InCompletion → World → World
  | [], w => w
  | c :: cs, w =>
    if w.exit_status.isSome then w
    else deliver_in cs (xfer_in_done c.write_ret c.submit_ret c.xfr w)

/-- Events a completion callback can produce when it is called on the IN
object: everything but a `read`, a `select`, a `cancel`, or the submission of
another object. -/
def is_callback_event : Event → Bool
  | Event.write _ _ _ => true
  | Event.diag _ _ => true
  | Event.submit t _ _ => decide (t.obj = XferObj.xfr)
  | Event.libusb_close => true
  | Event.libusb_exit => true
  | _ => false

/-- The two objects are what `main` made them: `xfr` is the IN object and
carries `xfer_in_done`; `oxfr` is the OUT object and carries `xfer_out_done`
once it has been filled. -/
def World.wf (w : World) : Prop :=
  w.xfr.obj = XferObj.xfr ∧ w.oxfr.obj = XferObj.oxfr
  ∧ w.xfr.callback = some Callback.xfer_in_done
  ∧ w.oxfr.callback ≠ some Callback.xfer_in_done

/-- The OUT invariant: at most one OUT transfer is in flight, and
`out_xfr_pending` is 1 whenever one is. -/
def out_inv (w : World) : Prop :=
  w.in_flight.count XferObj.oxfr ≤ 1
  ∧ (XferObj.oxfr ∈ w.in_flight → w.out_xfr_pending = 1)

/-- A `read` that returned zero bytes: end of the host input stream. -/
def is_eof_read : Event → Bool
  | Event.read _ _ ret _ => decide (ret = 0)
  | _ => false

/-- The OUT transfers submitted, in order: endpoint, length and payload (the
first `length` bytes of the buffer) of every submission of `oxfr`. -/
def out_submitted : List Event → List (Nat × Nat × List Nat)
  | [] => []
  | Event.submit t _ _ :: evs =>
    if t.obj = XferObj.oxfr then (t.endpoint, t.length, t.buffer.take t.length) :: out_submitted evs
    else out_submitted evs
  | _ :: evs => out_submitted evs

/-- The non-empty chunks the reads returned, in order, up to the first read
that returned zero bytes. -/
def chunks_read : List Event → List (List Nat)
  | [] => []
  | Event.read _ _ ret bytes :: evs =>
    if ret = 0 then [] else if 0 < ret then bytes :: chunks_read evs else chunks_read evs
  | _ :: evs => chunks_read evs

/-- What holds of the trace of the bidirectional loop as long as no read has
returned zero bytes: the OUT submissions are the chunks read, every read is
of the host input and asks for the OUT endpoint's packet size, and every OUT
submission is made with `out_xfr_pending` equal to 1. -/
def trace_ok (cfg : Config) (t : List Event) : Prop :=
  (∀ ev ∈ t, is_eof_read ev = false)
  ∧ out_submitted t
      = (chunks_read t).map (fun bs => (cfg.oep.bEndpointAddress, bs.length, bs))
  ∧ (∀ fd count ret bs, Event.read fd count ret bs ∈ t →
      fd = STDIN_FILENO ∧ count = cfg.oep.wMaxPacketSize ∧ bs.length ≤ count)
  ∧ (∀ x p r, Event.submit x p r ∈ t → x.obj = XferObj.oxfr → p = 1)

/-- What holds of the trace of a run: either no read has returned zero bytes
yet and `trace_ok` holds, or the run ended right after the first such read
with the two cancellations, a return of 0 from `main` and the exit handlers. -/
def run_ok (cfg : Config) (w : World) : Prop :=
  trace_ok cfg w.trace
  ∨ (w.exit_status = some 0
      ∧ ∃ pre, trace_ok cfg pre
          ∧ w.trace = pre ++ [Event.read STDIN_FILENO cfg.oep.wMaxPacketSize 0 [],
              Event.cancel XferObj.oxfr, Event.cancel XferObj.xfr,
              Event.libusb_close, Event.libusb_exit])

/-! ## Concrete runs -/

/-- A configuration with 4-byte packets on IN endpoint 0x81 and OUT endpoint
0x01, bidirectional mode. -/
def cfgS : Config :=
  { iep := { bEndpointAddress := 0x81, wMaxPacketSize := 4 },
    oep := { bEndpointAddress := 0x01, wMaxPacketSize := 4 },
    nostdin := 0 }

/-- The transport's single event descriptor, polled for reading. -/
def usbfd : libusb_pollfd := { fd := 5, events := POLLIN }

/-- A turn in which the host input is readable and holds `bs`; the transport
has nothing to dispatch and accepts a submission. -/
def env_stdin (bs : List Nat) : IterEnv :=
  { to_ := 0, tv := (0, 0), pollfds := [usbfd],
    sel := { n := 1, errno := 0, readable := [STDIN_FILENO], writable := [] },
    completions := [], stdin := ReadResult.bytes bs, submit_ret := 0 }

/-- A turn in which only the transport's descriptor is readable and the
transport dispatches the completions `cs`. -/
def env_usb (cs : List Completion) : IterEnv :=
  { to_ := 0, tv := (0, 0), pollfds := [usbfd],
    sel := { n := 1, errno := 0, readable := [5], writable := [] },
    completions := cs, stdin := ReadResult.bytes [], submit_ret := 0 }

/-- A turn in which `select` is interrupted by a signal (-1, `EINTR`) while
the host input holds two bytes. -/
def env_eintr : IterEnv :=
  { to_ := 0, tv := (0, 0), pollfds := [usbfd],
    sel := { n := -1, errno := EINTR, readable := [], writable := [] },
    completions := [], stdin := ReadResult.bytes [1, 2], submit_ret := 0 }

/-- Completion of the OUT transfer with the given status. -/
def out_completion (st : libusb_transfer_status) : Completion :=
  { obj := XferObj.oxfr, status := st, actual_length := 0, data := [],
    write_ret := 0, submit_ret := 0 }

/-- Completion of the IN transfer with status Completed and payload "xy";
the `write` takes both bytes and the resubmission is accepted. -/
def in_completion_xy : Completion :=
  { obj := XferObj.xfr, status := LIBUSB_TRANSFER_COMPLETED, actual_length := 2,
    data := [120, 121], write_ret := 2, submit_ret := 0 }

/-- Host input "abc" then end of stream; the IN endpoint never completes. -/
def scenarioA : List IterEnv :=
  [env_stdin [97, 98, 99], env_usb [out_completion LIBUSB_TRANSFER_COMPLETED], env_stdin []]

/-- The OUT transfer times out, then the host input is at end of stream. -/
def scenarioB : List IterEnv :=
  [env_stdin [97], env_usb [out_completion LIBUSB_TRANSFER_TIMED_OUT], env_stdin []]

/-- Three IN completions with payload "xy" in a row. -/
def scenarioC : List IterEnv :=
  [env_usb [in_completion_xy, in_completion_xy, in_completion_xy]]

/-- Host input "abcdef" with 4-byte packets: "abcd" is read and submitted, the
OUT transfer completes, "ef" is read and submitted, the OUT transfer completes,
and the host input is at end of stream. -/
def scenarioD : List IterEnv :=
  [env_stdin [97, 98, 99, 100, 101, 102], env_usb [out_completion LIBUSB_TRANSFER_COMPLETED],
   env_stdin [101, 102], env_usb [out_completion LIBUSB_TRANSFER_COMPLETED], env_stdin []]

/-- An IN transfer object holding "xy" with the given status. -/
def xfr_xy (st : libusb_transfer_status) : libusb_transfer :=
  { obj := XferObj.xfr, endpoint := 0x81, buffer := [120, 121, 0, 0], length := 4,
    callback := some Callback.xfer_in_done, status := st, actual_length := 2 }

/-- An OUT transfer object holding "abc" with the given status. -/
def oxfr_abc (st : libusb_transfer_status) : libusb_transfer :=
  { obj := XferObj.oxfr, endpoint := 0x01, buffer := [97, 98, 99, 0], length := 3,
    callback := some Callback.xfer_out_done, status := st, actual_length := 3 }

/-! ## Properties -/

theorem host_output_append (a b : List Event) :
    host_output (a ++ b) = host_output a ++ host_output b := by
  induction a with
  | nil => simp [host_output]
  | cons ev evs ih =>
    cases ev <;> simp [host_output, ih]

theorem xfer_in_done_completed_output (wr sr : Int) (xfr : libusb_transfer) (w : World)
    (hst : xfr.status = LIBUSB_TRANSFER_COMPLETED) (hwr : (xfr.actual_length : Int) ≤ wr) :
    host_output (xfer_in_done wr sr xfr w).trace
      = host_output w.trace ++ xfr.buffer.take xfr.actual_length := by
  have hlt : ¬ wr < (xfr.actual_length : Int) := not_lt.mpr hwr
  have htake : List.take wr.toNat (List.take xfr.actual_length xfr.buffer)
      = List.take xfr.actual_length xfr.buffer := by
    apply List.take_of_length_le
    have : xfr.actual_length ≤ wr.toNat := by omega
    exact le_trans (List.length_take_le _ _) this
  simp only [xfer_in_done, hst, hlt, if_false, xfer_in_done_submit, write,
    libusb_submit_transfer, crash, exit]
  split <;> simp [host_output_append, host_output, STDOUT_FILENO, htake]

theorem xfer_in_done_completed_alive (wr sr : Int) (xfr : libusb_transfer) (w : World)
    (hst : xfr.status = LIBUSB_TRANSFER_COMPLETED) (hwr : (xfr.actual_length : Int) ≤ wr)
    (hsr : 0 ≤ sr) :
    (xfer_in_done wr sr xfr w).exit_status = w.exit_status := by
  have hlt : ¬ wr < (xfr.actual_length : Int) := not_lt.mpr hwr
  have hsr2 : ¬ sr < 0 := not_lt.mpr hsr
  simp [xfer_in_done, hst, hlt, xfer_in_done_submit, write, libusb_submit_transfer, hsr2]

theorem add_pollfds_rfds (ps : List libusb_pollfd) (s : FdSets) (fd : Int) :
    fd ∈ (add_pollfds ps s).rfds
      ↔ fd ∈ s.rfds ∨ ∃ p ∈ ps, p.fd = fd ∧ p.events &&& POLLIN ≠ 0 := by
  induction ps generalizing s with
  | nil => simp [add_pollfds]
  | cons p ps ih =>
    rw [add_pollfds, ih]
    by_cases h1 : p.events &&& POLLIN ≠ 0 <;> by_cases h2 : p.events &&& POLLOUT ≠ 0 <;>
      by_cases h3 : s.maxfd < p.fd <;> simp [h1, h2, h3, FD_SET] <;> aesop

theorem add_pollfds_wfds (ps : List libusb_pollfd) (s : FdSets) (fd : Int) :
    fd ∈ (add_pollfds ps s).wfds
      ↔ fd ∈ s.wfds ∨ ∃ p ∈ ps, p.fd = fd ∧ p.events &&& POLLOUT ≠ 0 := by
  induction ps generalizing s with
  | nil => simp [add_pollfds]
  | cons p ps ih =>
    rw [add_pollfds, ih]
    by_cases h1 : p.events &&& POLLIN ≠ 0 <;> by_cases h2 : p.events &&& POLLOUT ≠ 0 <;>
      by_cases h3 : s.maxfd < p.fd <;> simp [h1, h2, h3, FD_SET] <;> aesop

theorem add_pollfds_maxfd (ps : List libusb_pollfd) (s : FdSets) :
    s.maxfd ≤ (add_pollfds ps s).maxfd ∧ ∀ p ∈ ps, p.fd ≤ (add_pollfds ps s).maxfd := by
  induction ps generalizing s with
  | nil => simp [add_pollfds]
  | cons p ps ih =>
    have key : ∀ s3 : FdSets, s.maxfd ≤ s3.maxfd → p.fd ≤ s3.maxfd →
        s.maxfd ≤ (add_pollfds ps s3).maxfd
          ∧ ∀ q ∈ p :: ps, q.fd ≤ (add_pollfds ps s3).maxfd := by
      intro s3 h1 h2
      refine ⟨le_trans h1 (ih s3).1, ?_⟩
      intro q hq
      rcases List.mem_cons.mp hq with rfl | hq
      · exact le_trans h2 (ih s3).1
      · exact (ih s3).2 q hq
    rw [add_pollfds]
    apply key
    · dsimp only
      split_ifs <;> (try dsimp only at *) <;> omega
    · dsimp only
      split_ifs <;> (try dsimp only at *) <;> omega

theorem xfer_in_done_frame (wr sr : Int) (t : libusb_transfer) (w : World)
    (ht : t.obj = XferObj.xfr) :
    (∃ evs, (xfer_in_done wr sr t w).trace = w.trace ++ evs
        ∧ ∀ ev ∈ evs, is_callback_event ev = true)
    ∧ (xfer_in_done wr sr t w).out_xfr_pending = w.out_xfr_pending
    ∧ (xfer_in_done wr sr t w).xfr = w.xfr
    ∧ (xfer_in_done wr sr t w).oxfr = w.oxfr
    ∧ (xfer_in_done wr sr t w).obuf = w.obuf
    ∧ ((xfer_in_done wr sr t w).in_flight = w.in_flight
        ∨ (xfer_in_done wr sr t w).in_flight = w.in_flight ++ [XferObj.xfr]) := by
  unfold xfer_in_done xfer_in_done_submit
  cases h : t.status <;> simp only [] <;> (try split_ifs) <;>
    simp [crash, exit, write, libusb_submit_transfer, is_callback_event, ht, *]

theorem xfer_out_done_frame (t : libusb_transfer) (w : World) :
    (∃ evs, (xfer_out_done t w).trace = w.trace ++ evs
        ∧ ∀ ev ∈ evs, is_callback_event ev = true)
    ∧ ((xfer_out_done t w).out_xfr_pending = 0
        ∨ (xfer_out_done t w).out_xfr_pending = w.out_xfr_pending)
    ∧ (xfer_out_done t w).xfr = w.xfr
    ∧ (xfer_out_done t w).oxfr = w.oxfr
    ∧ (xfer_out_done t w).obuf = w.obuf
    ∧ (xfer_out_done t w).in_flight = w.in_flight := by
  unfold xfer_out_done
  cases h : t.status <;> simp [crash, exit, is_callback_event]

theorem complete_frame (c : Completion) (w : World) (hwf : w.wf) :
    (complete c w).wf
    ∧ (∃ evs, (complete c w).trace = w.trace ++ evs
        ∧ ∀ ev ∈ evs, is_callback_event ev = true)
    ∧ (complete c w).obuf = w.obuf
    ∧ (complete c w).in_flight.count XferObj.oxfr ≤ w.in_flight.count XferObj.oxfr
    ∧ (out_inv w → out_inv (complete c w)) := by
  obtain ⟨h1, h2, h3, h4⟩ := hwf
  cases hc : c.obj with
  | xfr =>
    have heq : complete c w
        = xfer_in_done c.write_ret c.submit_ret (fill_completed c w.xfr)
            { w with xfr := fill_completed c w.xfr,
                     in_flight := w.in_flight.erase XferObj.xfr } := by
      simp [complete, hc, World.get, World.set, h3, fill_completed]
    obtain ⟨f1, f2, f3, f4, f5, f6⟩ := xfer_in_done_frame c.write_ret c.submit_ret
      (fill_completed c w.xfr)
      { w with xfr := fill_completed c w.xfr, in_flight := w.in_flight.erase XferObj.xfr }
      (by simp [fill_completed, h1])
    rw [← heq] at f1 f2 f3 f4 f5 f6
    have hcount : (complete c w).in_flight.count XferObj.oxfr
        = w.in_flight.count XferObj.oxfr := by
      rcases f6 with f6 | f6 <;> rw [f6] <;> simp [List.count_erase_of_ne]
    refine ⟨?_, f1, f5, le_of_eq hcount, ?_⟩
    · simp [World.wf, f3, f4, h1, h2, h3, h4, fill_completed]
    · intro hinv
      refine ⟨by rw [hcount]; exact hinv.1, ?_⟩
      intro hmem
      rw [f2]
      apply hinv.2
      have : 0 < w.in_flight.count XferObj.oxfr := by
        rw [← hcount]; exact List.count_pos_iff.mpr hmem
      exact List.count_pos_iff.mp this
  | oxfr =>
    have hcb : (fill_completed c w.oxfr).callback = w.oxfr.callback := by simp [fill_completed]
    have hcnt : ((w.in_flight.erase XferObj.oxfr).count XferObj.oxfr)
        ≤ w.in_flight.count XferObj.oxfr := by
      rw [List.count_erase_self]; omega
    have hinv0 : out_inv w → (w.in_flight.erase XferObj.oxfr).count XferObj.oxfr = 0 := by
      intro hinv
      rw [List.count_erase_self]
      have := hinv.1
      omega
    cases hk : w.oxfr.callback with
    | none =>
      have heq : complete c w
          = { w with oxfr := fill_completed c w.oxfr,
                     in_flight := w.in_flight.erase XferObj.oxfr } := by
        simp [complete, hc, World.get, World.set, hcb, hk]
      rw [heq]
      refine ⟨by simp [World.wf, h1, h2, h3, hcb, hk, fill_completed], ⟨[], by simp⟩, rfl, hcnt, ?_⟩
      intro hinv
      have h0 := hinv0 hinv
      refine ⟨by simp only; omega, ?_⟩
      intro hmem
      exact absurd (List.count_pos_iff.mpr hmem) (by simp only; omega)
    | some k =>
      cases k with
      | xfer_in_done => exact absurd hk h4
      | xfer_out_done =>
        have heq : complete c w
            = xfer_out_done (fill_completed c w.oxfr)
                { w with oxfr := fill_completed c w.oxfr,
                         in_flight := w.in_flight.erase XferObj.oxfr } := by
          simp [complete, hc, World.get, World.set, hcb, hk]
        obtain ⟨f1, f2, f3, f4, f5, f6⟩ := xfer_out_done_frame (fill_completed c w.oxfr)
          { w with oxfr := fill_completed c w.oxfr,
                   in_flight := w.in_flight.erase XferObj.oxfr }
        rw [← heq] at f1 f2 f3 f4 f5 f6
        refine ⟨?_, f1, f5, by rw [f6]; exact hcnt, ?_⟩
        · simp [World.wf, f3, f4, h1, h2, h3, hcb, hk, fill_completed]
        · intro hinv
          have h0 := hinv0 hinv
          refine ⟨by rw [f6]; simp only; omega, ?_⟩
          intro hmem
          rw [f6] at hmem
          exact absurd (List.count_pos_iff.mpr hmem) (by simp only; omega)

theorem handle_events_frame (cs : List Completion) (w : World) (hwf : w.wf) :
    (libusb_handle_events_timeout cs w).wf
    ∧ (∃ evs, (libusb_handle_events_timeout cs w).trace = w.trace ++ evs
        ∧ ∀ ev ∈ evs, is_callback_event ev = true)
    ∧ (libusb_handle_events_timeout cs w).obuf = w.obuf
    ∧ (libusb_handle_events_timeout cs w).in_flight.count XferObj.oxfr
        ≤ w.in_flight.count XferObj.oxfr
    ∧ (out_inv w → out_inv (libusb_handle_events_timeout cs w)) := by
  induction cs generalizing w with
  | nil => exact ⟨hwf, ⟨[], by simp [libusb_handle_events_timeout]⟩, rfl, le_refl _, id⟩
  | cons c cs ih =>
    rw [libusb_handle_events_timeout]
    split_ifs with hx
    · exact ⟨hwf, ⟨[], by simp⟩, rfl, le_refl _, id⟩
    · obtain ⟨c1, ⟨ev1, c2, c2b⟩, c3, c4, c5⟩ := complete_frame c w hwf
      obtain ⟨i1, ⟨ev2, i2, i2b⟩, i3, i4, i5⟩ := ih (complete c w) c1
      refine ⟨i1, ⟨ev1 ++ ev2, ?_, ?_⟩, i3.trans c3, le_trans i4 c4, fun h => i5 (c5 h)⟩
      · rw [i2, c2, List.append_assoc]
      · intro ev hev
        rcases List.mem_append.mp hev with h | h
        · exact c2b ev h
        · exact i2b ev h

theorem out_submitted_append (a b : List Event) :
    out_submitted (a ++ b) = out_submitted a ++ out_submitted b := by
  induction a with
  | nil => simp [out_submitted]
  | cons ev evs ih =>
    cases ev <;> simp [out_submitted, ih]
    split_ifs <;> simp

theorem chunks_read_append (a b : List Event) (ha : ∀ ev ∈ a, is_eof_read ev = false) :
    chunks_read (a ++ b) = chunks_read a ++ chunks_read b := by
  induction a with
  | nil => simp [chunks_read]
  | cons ev evs ih =>
    have h1 := ha ev (List.mem_cons_self _ _)
    have h2 := ih (fun x hx => ha x (List.mem_cons_of_mem _ hx))
    cases ev <;> simp [chunks_read, h2]
    simp [is_eof_read] at h1
    simp [h1]
    split_ifs <;> simp

theorem trace_ok_nil (cfg : Config) : trace_ok cfg [] := by
  simp [trace_ok, out_submitted, chunks_read]

theorem trace_ok_append (cfg : Config) (a b : List Event)
    (ha : trace_ok cfg a) (hb : trace_ok cfg b) : trace_ok cfg (a ++ b) := by
  obtain ⟨a1, a2, a3, a4⟩ := ha
  obtain ⟨b1, b2, b3, b4⟩ := hb
  refine ⟨?_, ?_, ?_, ?_⟩
  · intro ev hev
    rcases List.mem_append.mp hev with h | h
    · exact a1 ev h
    · exact b1 ev h
  · rw [out_submitted_append, chunks_read_append a b a1, List.map_append, a2, b2]
  · intro fd count ret bs hev
    rcases List.mem_append.mp hev with h | h
    · exact a3 fd count ret bs h
    · exact b3 fd count ret bs h
  · intro x p r hev
    rcases List.mem_append.mp hev with h | h
    · exact a4 x p r h
    · exact b4 x p r h

theorem trace_ok_callback (cfg : Config) (evs : List Event)
    (h : ∀ ev ∈ evs, is_callback_event ev = true) : trace_ok cfg evs := by
  induction evs with
  | nil => exact trace_ok_nil cfg
  | cons ev evs ih =>
    have h1 := h ev (List.mem_cons_self _ _)
    have h2 := ih (fun x hx => h x (List.mem_cons_of_mem _ hx))
    have : trace_ok cfg [ev] := by
      cases ev <;> simp [is_callback_event] at h1 <;>
        simp [trace_ok, is_eof_read, out_submitted, chunks_read, h1]
      intro x p r hx _ _ hobj
      rw [hx, h1] at hobj
      exact absurd hobj (by decide)
    exact trace_ok_append cfg [ev] evs this h2
theorem select_set_subset (r : SelectResult) (set ready : List Int) (fd : Int)
    (h : fd ∈ select_set r set ready) : fd ∈ set := by
  unfold select_set at h
  split_ifs at h
  · exact h
  · exact (List.mem_filter.mp h).1

theorem build_fds_stdin (pending : Int) (pollfds : List libusb_pollfd) (fd : Int) :
    fd ∈ (build_fds pending pollfds).rfds
      ↔ (fd = STDIN_FILENO ∧ pending = 0)
        ∨ ∃ p ∈ pollfds, p.fd = fd ∧ p.events &&& POLLIN ≠ 0 := by
  rw [build_fds, add_pollfds_rfds]
  by_cases h : pending = 0 <;> simp [init_fds, h, FD_SET, FD_ZERO]

theorem wait_and_dispatch_frame (e : IterEnv) (w : World) (hwf : w.wf) :
    (wait_and_dispatch e w).2.wf
    ∧ (∃ evs, (wait_and_dispatch e w).2.trace
          = w.trace ++ Event.select ((build_fds w.out_xfr_pending e.pollfds).maxfd + 1)
              (build_fds w.out_xfr_pending e.pollfds).rfds
              (build_fds w.out_xfr_pending e.pollfds).wfds
              (if e.to_ ≠ 0 then some e.tv else none) e.sel.n :: evs
        ∧ ∀ ev ∈ evs, is_callback_event ev = true)
    ∧ (wait_and_dispatch e w).2.obuf = w.obuf
    ∧ (wait_and_dispatch e w).2.in_flight.count XferObj.oxfr ≤ w.in_flight.count XferObj.oxfr
    ∧ (out_inv w → out_inv (wait_and_dispatch e w).2)
    ∧ (∀ fd, fd ∈ (wait_and_dispatch e w).1 →
        fd ∈ (build_fds w.out_xfr_pending e.pollfds).rfds) := by
  unfold wait_and_dispatch select
  simp only []
  generalize (if e.to_ ≠ 0 then some e.tv else none) = tmo
  generalize build_fds w.out_xfr_pending e.pollfds = s
  by_cases hfail : e.sel.n < 0 ∧ e.sel.errno ≠ EINTR
  · rw [if_pos hfail]
    refine ⟨?_, ⟨[Event.diag "select" [], Event.libusb_close, Event.libusb_exit], ?_, ?_⟩,
      ?_, ?_, ?_, ?_⟩
    · simpa [World.wf, crash, exit] using hwf
    · simp [crash, exit]
    · simp [is_callback_event]
    · simp [crash, exit]
    · simp [crash, exit]
    · intro h; simpa [out_inv, crash, exit] using h
    · intro fd hfd; exact select_set_subset _ _ _ _ hfd
  · rw [if_neg hfail]
    obtain ⟨f1, ⟨evs, f2, f2b⟩, f3, f4, f5⟩ := handle_events_frame e.completions
      { w with trace := w.trace ++ [Event.select (s.maxfd + 1) s.rfds s.wfds tmo e.sel.n] } hwf
    refine ⟨f1, ⟨evs, ?_, f2b⟩, f3, f4, f5, ?_⟩
    · rw [f2]; simp
    · intro fd hfd; exact select_set_subset _ _ _ _ hfd
theorem pump_frame (cfg : Config) (e : IterEnv) (w : World) (hwf : w.wf) :
    (pump cfg e w).2.wf
    ∧ (XferObj.oxfr ∉ w.in_flight → out_inv (pump cfg e w).2)
    ∧ (((pump cfg e w).1 = Ctl.continue_
          ∧ ∃ evs, (pump cfg e w).2.trace = w.trace ++ evs ∧ trace_ok cfg evs)
        ∨ ((pump cfg e w).1 = Ctl.break_
          ∧ (pump cfg e w).2.trace
              = w.trace ++ [Event.read STDIN_FILENO cfg.oep.wMaxPacketSize 0 []]
          ∧ (pump cfg e w).2.exit_status = w.exit_status)) := by
  obtain ⟨h1, h2, h3, h4⟩ := hwf
  have hnot : XferObj.oxfr ∉ w.in_flight → w.in_flight.count XferObj.oxfr = 0 :=
    fun h => List.count_eq_zero.mpr h
  cases hs : e.stdin with
  | error =>
    refine ⟨?_, ?_, Or.inl ⟨?_, [Event.read STDIN_FILENO cfg.oep.wMaxPacketSize (-1) [],
      Event.diag "read stdin" [], Event.libusb_close, Event.libusb_exit], ?_, ?_⟩⟩
    · simp [pump, read, hs, crash, exit, World.wf, h1, h2, h3, h4]
    · intro hn
      have := hnot hn
      simp [pump, read, hs, crash, exit, out_inv, hn, this]
    · simp [pump, read, hs]
    · simp [pump, read, hs, crash, exit]
    · simp [trace_ok, is_eof_read, out_submitted, chunks_read]
      rintro _ _ _ _ rfl rfl rfl rfl
      simp
  | bytes bs =>
    by_cases hg : bs.take cfg.oep.wMaxPacketSize = []
    · have hl : (bs.take cfg.oep.wMaxPacketSize).length = 0 := by rw [hg]; rfl
      refine ⟨?_, ?_, Or.inr ⟨?_, ?_, ?_⟩⟩
      · simp [pump, read, hs, hg, World.wf, h1, h2, h3, h4]
      · intro hn
        have := hnot hn
        simp [pump, read, hs, hg, out_inv, hn, this]
      · simp [pump, read, hs, hg]
      · simp [pump, read, hs, hg]
      · simp [pump, read, hs, hg]
    · have hl : (bs.take cfg.oep.wMaxPacketSize).length ≠ 0 := by
        intro h; exact hg (List.length_eq_zero.mp h)
      have hl2 : ¬ ((bs.take cfg.oep.wMaxPacketSize).length : Int) = 0 := by omega
      have hl3 : ¬ ((bs.take cfg.oep.wMaxPacketSize).length : Int) < 0 := by omega
      have hl4 : (0 : Int) < ((bs.take cfg.oep.wMaxPacketSize).length : Int) := by omega
      have hle : (bs.take cfg.oep.wMaxPacketSize).length ≤ cfg.oep.wMaxPacketSize :=
        List.length_take_le _ _
      have htk : List.take (bs.take cfg.oep.wMaxPacketSize).length
          (bs.take cfg.oep.wMaxPacketSize
            ++ List.drop (bs.take cfg.oep.wMaxPacketSize).length w.obuf)
          = bs.take cfg.oep.wMaxPacketSize := by
        simp
      by_cases hr : e.submit_ret < 0
      · have hr2 : ¬ 0 ≤ e.submit_ret := by omega
        refine ⟨?_, ?_, Or.inl ⟨?_, [Event.read STDIN_FILENO cfg.oep.wMaxPacketSize
            ((bs.take cfg.oep.wMaxPacketSize).length : Int) (bs.take cfg.oep.wMaxPacketSize),
          Event.submit (libusb_fill_bulk_transfer w.oxfr cfg.oep.bEndpointAddress
              (bs.take cfg.oep.wMaxPacketSize
                ++ w.obuf.drop (bs.take cfg.oep.wMaxPacketSize).length)
              (bs.take cfg.oep.wMaxPacketSize).length Callback.xfer_out_done) 1 e.submit_ret,
          Event.diag "libusb_submit_transfer (OUT): %s" [e.submit_ret],
          Event.libusb_close, Event.libusb_exit], ?_, ?_⟩⟩
        · simp [-List.length_take, Int.toNat_ofNat, pump, read, hs, hl2, hl3, hr, crash, exit, libusb_submit_transfer,
            libusb_fill_bulk_transfer, World.wf, h1, h2, h3]
        · intro hn
          have := hnot hn
          simp [-List.length_take, Int.toNat_ofNat, pump, read, hs, hl2, hl3, hr, hr2, crash, exit, libusb_submit_transfer,
            out_inv, this]
        · simp [-List.length_take, Int.toNat_ofNat, pump, read, hs, hl2, hl3, hr]
        · simp [-List.length_take, Int.toNat_ofNat, pump, read, hs, hl2, hl3, hr, crash, exit, libusb_submit_transfer]
        · refine ⟨?_, ?_, ?_, ?_⟩
          · simp [-List.length_take, is_eof_read, hl2]
          · simp [-List.length_take, out_submitted, chunks_read, hl2, hl4, libusb_fill_bulk_transfer, h2, htk]
          · simp [-List.length_take]
            rintro _ _ _ _ rfl rfl rfl rfl
            simp [-List.length_take, hle]
          · simp [-List.length_take]
            rintro _ _ _ _ rfl _ _
            rfl
      · have hr2 : 0 ≤ e.submit_ret := by omega
        refine ⟨?_, ?_, Or.inl ⟨?_, [Event.read STDIN_FILENO cfg.oep.wMaxPacketSize
            ((bs.take cfg.oep.wMaxPacketSize).length : Int) (bs.take cfg.oep.wMaxPacketSize),
          Event.submit (libusb_fill_bulk_transfer w.oxfr cfg.oep.bEndpointAddress
              (bs.take cfg.oep.wMaxPacketSize
                ++ w.obuf.drop (bs.take cfg.oep.wMaxPacketSize).length)
              (bs.take cfg.oep.wMaxPacketSize).length Callback.xfer_out_done) 1 e.submit_ret],
          ?_, ?_⟩⟩
        · simp [-List.length_take, Int.toNat_ofNat, pump, read, hs, hl2, hl3, hr, libusb_submit_transfer,
            libusb_fill_bulk_transfer, World.wf, h1, h2, h3]
        · intro hn
          have := hnot hn
          simp [-List.length_take, Int.toNat_ofNat, pump, read, hs, hl2, hl3, hr, hr2, libusb_submit_transfer,
            libusb_fill_bulk_transfer, h2, out_inv, this]
        · simp [-List.length_take, Int.toNat_ofNat, pump, read, hs, hl2, hl3, hr]
        · simp [-List.length_take, Int.toNat_ofNat, pump, read, hs, hl2, hl3, hr, libusb_submit_transfer]
        · refine ⟨?_, ?_, ?_, ?_⟩
          · simp [-List.length_take, is_eof_read, hl2]
          · simp [-List.length_take, out_submitted, chunks_read, hl2, hl4, libusb_fill_bulk_transfer, h2, htk]
          · simp [-List.length_take]
            rintro _ _ _ _ rfl rfl rfl rfl
            simp [-List.length_take, hle]
          · simp [-List.length_take]
            rintro _ _ _ _ rfl _ _
            rfl

theorem loop_body_eq (cfg : Config) (e : IterEnv) (w : World) :
    loop_body cfg e w
      = if (wait_and_dispatch e w).2.exit_status.isSome then
          (Ctl.continue_, (wait_and_dispatch e w).2)
        else if ¬ FD_ISSET STDIN_FILENO (wait_and_dispatch e w).1 then
          (Ctl.continue_, (wait_and_dispatch e w).2)
        else pump cfg e (wait_and_dispatch e w).2 := by
  rfl

theorem loop_body_trace (cfg : Config) (e : IterEnv) (w : World) (hwf : w.wf) :
    (loop_body cfg e w).2.wf
    ∧ (((loop_body cfg e w).1 = Ctl.continue_
          ∧ ∃ evs, (loop_body cfg e w).2.trace = w.trace ++ evs ∧ trace_ok cfg evs)
        ∨ ((loop_body cfg e w).1 = Ctl.break_
          ∧ (∃ evs, (loop_body cfg e w).2.trace
                = w.trace ++ evs ++ [Event.read STDIN_FILENO cfg.oep.wMaxPacketSize 0 []]
              ∧ trace_ok cfg evs)
          ∧ (loop_body cfg e w).2.exit_status = none)) := by
  obtain ⟨f1, ⟨evs, f2, f2b⟩, -, -, -, -⟩ := wait_and_dispatch_frame e w hwf
  have hsel : trace_ok cfg
      (Event.select ((build_fds w.out_xfr_pending e.pollfds).maxfd + 1)
        (build_fds w.out_xfr_pending e.pollfds).rfds
        (build_fds w.out_xfr_pending e.pollfds).wfds
        (if e.to_ ≠ 0 then some e.tv else none) e.sel.n :: evs) :=
    trace_ok_append cfg [_] evs
      (by simp [trace_ok, is_eof_read, out_submitted, chunks_read])
      (trace_ok_callback cfg evs f2b)
  rw [loop_body_eq]
  split_ifs with hx hr
  · exact ⟨f1, Or.inl ⟨rfl, _, f2, hsel⟩⟩
  · obtain ⟨p1, -, p3⟩ := pump_frame cfg e (wait_and_dispatch e w).2 f1
    refine ⟨p1, ?_⟩
    rcases p3 with ⟨pc, evs2, pt, pok⟩ | ⟨pc, pt, px⟩
    · refine Or.inl ⟨pc, _, ?_, trace_ok_append cfg _ _ hsel pok⟩
      rw [pt, f2, List.append_assoc]
    · refine Or.inr ⟨pc, ⟨_, ?_, hsel⟩, ?_⟩
      · rw [pt, f2]
      · rw [px]
        simpa using hx
  · exact ⟨f1, Or.inl ⟨rfl, _, f2, hsel⟩⟩

theorem loop_body_out_inv (cfg : Config) (e : IterEnv) (w : World) (hwf : w.wf)
    (hinv : out_inv w) (hpoll : ∀ p ∈ e.pollfds, p.fd ≠ STDIN_FILENO) :
    out_inv (wait_and_dispatch e w).2
    ∧ ((wait_and_dispatch e w).2.exit_status = none →
        FD_ISSET STDIN_FILENO (wait_and_dispatch e w).1 = true →
        XferObj.oxfr ∉ (wait_and_dispatch e w).2.in_flight)
    ∧ out_inv (loop_body cfg e w).2 := by
  obtain ⟨f1, -, -, f4, f5, f6⟩ := wait_and_dispatch_frame e w hwf
  have hmid : FD_ISSET STDIN_FILENO (wait_and_dispatch e w).1 = true →
      XferObj.oxfr ∉ (wait_and_dispatch e w).2.in_flight := by
    intro hr hmem
    have hreg := f6 STDIN_FILENO (by simpa [FD_ISSET] using hr)
    rw [build_fds_stdin] at hreg
    rcases hreg with ⟨-, hp⟩ | ⟨p, hp, hfd, -⟩
    · have hpos : 0 < (wait_and_dispatch e w).2.in_flight.count XferObj.oxfr :=
        List.count_pos_iff.mpr hmem
      have hin : XferObj.oxfr ∈ w.in_flight :=
        List.count_pos_iff.mp (lt_of_lt_of_le hpos f4)
      have := hinv.2 hin
      omega
    · exact hpoll p hp hfd
  refine ⟨f5 hinv, fun _ => hmid, ?_⟩
  rw [loop_body_eq]
  split_ifs with hx hr
  · exact f5 hinv
  · exact (pump_frame cfg e (wait_and_dispatch e w).2 f1).2.1 (hmid hr)
  · exact f5 hinv

theorem start_frame (cfg : Config) (r : Int) :
    (start cfg r).wf ∧ out_inv (start cfg r) ∧ trace_ok cfg (start cfg r).trace := by
  unfold start
  simp only []
  split_ifs with h
  · have h2 : ¬ 0 ≤ r := by omega
    refine ⟨?_, ?_, ?_⟩
    · simp [World.wf, crash, exit, libusb_submit_transfer, libusb_fill_bulk_transfer,
        libusb_alloc_transfer]
    · simp [out_inv, crash, exit, libusb_submit_transfer, h2]
    · apply trace_ok_callback
      simp [crash, exit, libusb_submit_transfer, is_callback_event, libusb_fill_bulk_transfer,
        libusb_alloc_transfer]
  · have h2 : 0 ≤ r := by omega
    refine ⟨?_, ?_, ?_⟩
    · simp [World.wf, libusb_submit_transfer, libusb_fill_bulk_transfer,
        libusb_alloc_transfer]
    · simp [out_inv, libusb_submit_transfer, h2, libusb_fill_bulk_transfer,
        libusb_alloc_transfer]
    · apply trace_ok_callback
      simp [libusb_submit_transfer, is_callback_event, libusb_fill_bulk_transfer,
        libusb_alloc_transfer]

theorem inbound_loop_frame (cfg : Config) (script : List IterEnv) (w : World)
    (hwf : w.wf) (hinv : out_inv w) (hok : trace_ok cfg w.trace) :
    out_inv (inbound_loop script w) ∧ trace_ok cfg (inbound_loop script w).trace := by
  induction script generalizing w with
  | nil => exact ⟨hinv, hok⟩
  | cons e es ih =>
    rw [inbound_loop]
    split_ifs with hx
    · exact ⟨hinv, hok⟩
    · obtain ⟨f1, ⟨evs, f2, f2b⟩, -, -, f5⟩ := handle_events_frame e.completions w hwf
      apply ih _ f1 (f5 hinv)
      rw [f2]
      exact trace_ok_append cfg _ _ hok (trace_ok_callback cfg evs f2b)

theorem main_loop_eq (cfg : Config) (e : IterEnv) (es : List IterEnv) (w : World) :
    main_loop cfg (e :: es) w
      = if w.exit_status.isSome then w
        else if (loop_body cfg e w).1 = Ctl.break_ then after_loop (loop_body cfg e w).2
        else main_loop cfg es (loop_body cfg e w).2 := by
  rw [main_loop]
  rcases h : loop_body cfg e w with ⟨c, w1⟩
  cases c <;> simp

theorem main_loop_out_inv (cfg : Config) (script : List IterEnv) (w : World)
    (hwf : w.wf) (hinv : out_inv w)
    (hpoll : ∀ x ∈ script, ∀ p ∈ x.pollfds, p.fd ≠ STDIN_FILENO) :
    (main_loop cfg script w).wf ∧ out_inv (main_loop cfg script w) := by
  induction script generalizing w with
  | nil => exact ⟨hwf, hinv⟩
  | cons e es ih =>
    have hwf1 := (loop_body_trace cfg e w hwf).1
    have hinv1 := (loop_body_out_inv cfg e w hwf hinv (hpoll e (List.mem_cons_self _ _))).2.2
    rw [main_loop_eq]
    split_ifs with hx hb
    · exact ⟨hwf, hinv⟩
    · refine ⟨?_, ?_⟩
      · simpa [after_loop, exit, libusb_cancel_transfer, World.wf] using hwf1
      · simpa [after_loop, exit, libusb_cancel_transfer, out_inv] using hinv1
    · exact ih _ hwf1 hinv1 (fun x hx => hpoll x (List.mem_cons_of_mem _ hx))

theorem main_loop_run_ok (cfg : Config) (script : List IterEnv) (w : World)
    (hwf : w.wf) (hok : trace_ok cfg w.trace) :
    run_ok cfg (main_loop cfg script w) := by
  induction script generalizing w with
  | nil => exact Or.inl hok
  | cons e es ih =>
    obtain ⟨hwf1, htr⟩ := loop_body_trace cfg e w hwf
    rw [main_loop_eq]
    split_ifs with hx hb
    · exact Or.inl hok
    · rcases htr with ⟨hc, -⟩ | ⟨-, ⟨evs, ht, hev⟩, hal⟩
      · rw [hc] at hb; exact absurd hb (by decide)
      · refine Or.inr ⟨by simp [after_loop, exit], w.trace ++ evs,
          trace_ok_append cfg _ _ hok hev, ?_⟩
        simp [after_loop, exit, libusb_cancel_transfer, ht]
    · rcases htr with ⟨-, evs, ht, hev⟩ | ⟨hc, -⟩
      · apply ih _ hwf1
        rw [ht]
        exact trace_ok_append cfg _ _ hok hev
      · exact absurd hc hb

theorem main_out_inv (cfg : Config) (r : Int) (script : List IterEnv)
    (hpoll : ∀ x ∈ script, ∀ p ∈ x.pollfds, p.fd ≠ STDIN_FILENO) :
    out_inv (main cfg r script) := by
  obtain ⟨s1, s2, s3⟩ := start_frame cfg r
  unfold main
  simp only []
  split_ifs with hx hn
  · exact s2
  · exact (inbound_loop_frame cfg script _ s1 s2 s3).1
  · exact (main_loop_out_inv cfg script _ (by simpa [World.wf] using s1)
      (by simpa [out_inv] using s2) hpoll).2

theorem main_run_ok (cfg : Config) (r : Int) (script : List IterEnv) :
    run_ok cfg (main cfg r script) := by
  obtain ⟨s1, s2, s3⟩ := start_frame cfg r
  unfold main
  simp only []
  split_ifs with hx hn
  · exact Or.inl s3
  · exact Or.inl (inbound_loop_frame cfg script _ s1 s2 s3).2
  · exact main_loop_run_ok cfg script _ (by simpa [World.wf] using s1) s3

theorem handle_events_trace_ext (cs : List Completion) (w : World) :
    ∃ evs, (libusb_handle_events_timeout cs w).trace = w.trace ++ evs := by
  induction cs generalizing w with
  | nil => exact ⟨[], by simp [libusb_handle_events_timeout]⟩
  | cons c cs ih =>
    rw [libusb_handle_events_timeout]
    split_ifs with hx
    · exact ⟨[], by simp⟩
    · have hc : ∃ evs, (complete c w).trace = w.trace ++ evs := by
        unfold complete
        simp only []
        split
        · unfold xfer_in_done xfer_in_done_submit
          cases (fill_completed c (w.get c.obj)).status <;> simp only [] <;>
            (try split_ifs) <;>
            cases c.obj <;>
            simp [crash, exit, write, libusb_submit_transfer, World.set]
        · unfold xfer_out_done
          cases (fill_completed c (w.get c.obj)).status <;> cases c.obj <;>
            simp [crash, exit, World.set]
        · cases c.obj <;> exact ⟨[], by simp [World.set]⟩
      obtain ⟨ev1, h1⟩ := hc
      obtain ⟨ev2, h2⟩ := ih (complete c w)
      exact ⟨ev1 ++ ev2, by rw [h2, h1, List.append_assoc]⟩

theorem main_loop_wf (cfg : Config) (script : List IterEnv) (w : World) (hwf : w.wf) :
    (main_loop cfg script w).wf := by
  induction script generalizing w with
  | nil => exact hwf
  | cons e es ih =>
    have hwf1 := (loop_body_trace cfg e w hwf).1
    rw [main_loop_eq]
    split_ifs with hx hb
    · exact hwf
    · simpa [after_loop, exit, libusb_cancel_transfer, World.wf] using hwf1
    · exact ih _ hwf1

theorem inbound_loop_wf (script : List IterEnv) (w : World) (hwf : w.wf) :
    (inbound_loop script w).wf := by
  induction script generalizing w with
  | nil => exact hwf
  | cons e es ih =>
    rw [inbound_loop]
    split_ifs with hx
    · exact hwf
    · exact ih _ (handle_events_frame e.completions w hwf).1

theorem main_wf (cfg : Config) (r : Int) (script : List IterEnv) :
    (main cfg r script).wf := by
  obtain ⟨s1, -, -⟩ := start_frame cfg r
  unfold main
  simp only []
  split_ifs with hx hn
  · exact s1
  · exact inbound_loop_wf script _ s1
  · exact main_loop_wf cfg script _ (by simpa [World.wf] using s1)

theorem pump_submits (cfg : Config) (e : IterEnv) (w : World) (bs : List Nat)
    (hwf : w.wf) (hin : e.stdin = ReadResult.bytes bs)
    (hg : bs.take cfg.oep.wMaxPacketSize ≠ []) :
    (∃ t : libusb_transfer,
      (pump cfg e w).2.trace
        = w.trace
          ++ [Event.read STDIN_FILENO cfg.oep.wMaxPacketSize
                ((bs.take cfg.oep.wMaxPacketSize).length : Int)
                (bs.take cfg.oep.wMaxPacketSize),
              Event.submit t 1 e.submit_ret]
          ++ (if e.submit_ret < 0 then
                [Event.diag "libusb_submit_transfer (OUT): %s" [e.submit_ret],
                 Event.libusb_close, Event.libusb_exit]
              else [])
      ∧ t.obj = XferObj.oxfr
      ∧ t.endpoint = cfg.oep.bEndpointAddress
      ∧ t.length = (bs.take cfg.oep.wMaxPacketSize).length
      ∧ t.buffer.take t.length = bs.take cfg.oep.wMaxPacketSize
      ∧ t.callback = some Callback.xfer_out_done)
    ∧ out_submitted (pump cfg e w).2.trace
        = out_submitted w.trace
          ++ [(cfg.oep.bEndpointAddress, (bs.take cfg.oep.wMaxPacketSize).length,
               bs.take cfg.oep.wMaxPacketSize)]
    ∧ (pump cfg e w).2.out_xfr_pending = 1
    ∧ (0 ≤ e.submit_ret → (pump cfg e w).2.in_flight = w.in_flight ++ [XferObj.oxfr])
    ∧ (pump cfg e w).1 = Ctl.continue_ := by
  obtain ⟨-, h2, -, -⟩ := hwf
  have hl : (bs.take cfg.oep.wMaxPacketSize).length ≠ 0 := by
    intro h; exact hg (List.length_eq_zero.mp h)
  have hl2 : ¬ ((bs.take cfg.oep.wMaxPacketSize).length : Int) = 0 := by omega
  have hl3 : ¬ ((bs.take cfg.oep.wMaxPacketSize).length : Int) < 0 := by omega
  have htk : List.take (bs.take cfg.oep.wMaxPacketSize).length
      (bs.take cfg.oep.wMaxPacketSize
        ++ List.drop (bs.take cfg.oep.wMaxPacketSize).length w.obuf)
      = bs.take cfg.oep.wMaxPacketSize := by
    simp
  by_cases hr : e.submit_ret < 0
  · have hr2 : ¬ 0 ≤ e.submit_ret := by omega
    refine ⟨⟨libusb_fill_bulk_transfer w.oxfr cfg.oep.bEndpointAddress
        (bs.take cfg.oep.wMaxPacketSize
          ++ w.obuf.drop (bs.take cfg.oep.wMaxPacketSize).length)
        (bs.take cfg.oep.wMaxPacketSize).length Callback.xfer_out_done,
      ?_, ?_, ?_, ?_, ?_, ?_⟩, ?_, ?_, ?_, ?_⟩
    · simp [-List.length_take, Int.toNat_ofNat, pump, read, hin, hl2, hl3, hr, crash, exit,
        libusb_submit_transfer]
    · simp [libusb_fill_bulk_transfer, h2]
    · simp [libusb_fill_bulk_transfer]
    · simp [libusb_fill_bulk_transfer]
    · simp [-List.length_take, libusb_fill_bulk_transfer]
    · simp [libusb_fill_bulk_transfer]
    · simp [-List.length_take, Int.toNat_ofNat, pump, read, hin, hl2, hl3, hr, crash, exit,
        libusb_submit_transfer, out_submitted_append, out_submitted,
        libusb_fill_bulk_transfer, h2, htk]
    · simp [-List.length_take, Int.toNat_ofNat, pump, read, hin, hl2, hl3, hr, crash, exit,
        libusb_submit_transfer]
    · intro h0; exact absurd h0 hr2
    · simp [-List.length_take, pump, read, hin, hl2, hl3, hr]
  · have hr2 : 0 ≤ e.submit_ret := by omega
    refine ⟨⟨libusb_fill_bulk_transfer w.oxfr cfg.oep.bEndpointAddress
        (bs.take cfg.oep.wMaxPacketSize
          ++ w.obuf.drop (bs.take cfg.oep.wMaxPacketSize).length)
        (bs.take cfg.oep.wMaxPacketSize).length Callback.xfer_out_done,
      ?_, ?_, ?_, ?_, ?_, ?_⟩, ?_, ?_, ?_, ?_⟩
    · simp [-List.length_take, Int.toNat_ofNat, pump, read, hin, hl2, hl3, hr,
        libusb_submit_transfer]
    · simp [libusb_fill_bulk_transfer, h2]
    · simp [libusb_fill_bulk_transfer]
    · simp [libusb_fill_bulk_transfer]
    · simp [-List.length_take, libusb_fill_bulk_transfer]
    · simp [libusb_fill_bulk_transfer]
    · simp [-List.length_take, Int.toNat_ofNat, pump, read, hin, hl2, hl3, hr,
        libusb_submit_transfer, out_submitted_append, out_submitted,
        libusb_fill_bulk_transfer, h2, htk]
    · simp [-List.length_take, Int.toNat_ofNat, pump, read, hin, hl2, hl3, hr,
        libusb_submit_transfer]
    · intro _
      simp [-List.length_take, Int.toNat_ofNat, pump, read, hin, hl2, hl3, hr, hr2,
        libusb_submit_transfer, libusb_fill_bulk_transfer, h2]
    · simp [-List.length_take, pump, read, hin, hl2, hl3, hr]

theorem handle_events_dead (cs : List Completion) (w : World)
    (h : w.exit_status.isSome = true) : libusb_handle_events_timeout cs w = w := by
  cases cs with
  | nil => rfl
  | cons c cs => rw [libusb_handle_events_timeout, if_pos h]

theorem wait_and_dispatch_dead (e : IterEnv) (w : World)
    (h : w.exit_status.isSome = true) :
    (wait_and_dispatch e w).2.exit_status.isSome = true := by
  unfold wait_and_dispatch select
  simp only []
  generalize (if e.to_ ≠ 0 then some e.tv else none) = tmo
  by_cases hfail : e.sel.n < 0 ∧ e.sel.errno ≠ EINTR
  · rw [if_pos hfail]
    simp [crash, exit]
  · rw [if_neg hfail, handle_events_dead _ _ (by simpa using h)]
    simpa using h

theorem after_loop_dead (w : World) : (after_loop w).exit_status.isSome = true := by
  simp [after_loop, exit]

theorem main_loop_dead (cfg : Config) (script : List IterEnv) (w : World)
    (h : w.exit_status.isSome = true) : main_loop cfg script w = w := by
  cases script with
  | nil => rfl
  | cons e es => rw [main_loop_eq, if_pos h]

theorem main_loop_snoc (cfg : Config) (script : List IterEnv) (e : IterEnv) (w : World) :
    main_loop cfg (script ++ [e]) w = main_loop cfg [e] (main_loop cfg script w) := by
  induction script generalizing w with
  | nil => rfl
  | cons a rest ih =>
    rw [List.cons_append, main_loop_eq, main_loop_eq cfg a rest]
    split_ifs with hx hb
    · exact (main_loop_dead cfg [e] w hx).symm
    · exact (main_loop_dead cfg [e] _ (after_loop_dead _)).symm
    · exact ih _

theorem main_snoc (cfg : Config) (r : Int) (script : List IterEnv) (e : IterEnv)
    (hmode : cfg.nostdin = 0) :
    main cfg r (script ++ [e]) = main_loop cfg [e] (main cfg r script) := by
  unfold main
  simp only [hmode, ne_eq, not_true_eq_false, if_false]
  split_ifs with hx
  · exact (main_loop_dead cfg [e] _ hx).symm
  · exact main_loop_snoc cfg script e _

/-- C1: in every state a run of `main` reaches by turns of the loop, and in
every state between the completion callbacks of the next turn, at most one
OUT transfer is in flight and `out_xfr_pending` is 1 whenever one is; and
when the next turn goes on to read the host input and submit, no OUT transfer
is in flight.  The transport's poll set is assumed never to hold the host
input descriptor. -/
theorem C1_out_single_in_flight (cfg : Config) (submit_ret : Int) (script : List IterEnv)
    (e : IterEnv)
    (hscript : ∀ x ∈ script, ∀ p ∈ x.pollfds, p.fd ≠ STDIN_FILENO)
    (he : ∀ p ∈ e.pollfds, p.fd ≠ STDIN_FILENO) :
    out_inv (main cfg submit_ret script)
    ∧ out_inv (wait_and_dispatch e (main cfg submit_ret script)).2
    ∧ ((wait_and_dispatch e (main cfg submit_ret script)).2.exit_status = none →
        FD_ISSET STDIN_FILENO (wait_and_dispatch e (main cfg submit_ret script)).1 = true →
        XferObj.oxfr ∉ (wait_and_dispatch e (main cfg submit_ret script)).2.in_flight) := by
  have hinv := main_out_inv cfg submit_ret script hscript
  have hwf := main_wf cfg submit_ret script
  obtain ⟨h1, h2, -⟩ := loop_body_out_inv cfg e _ hwf hinv he
  exact ⟨hinv, h1, h2⟩

/-- C1 at a concrete run: after "abc" was read and submitted, the OUT transfer
is in flight, alone, with `out_xfr_pending` equal to 1. -/
theorem C1_out_single_in_flight_witness :
    (∀ x ∈ [env_stdin [97, 98, 99]], ∀ p ∈ x.pollfds, p.fd ≠ STDIN_FILENO)
    ∧ (∀ p ∈ (env_usb [out_completion LIBUSB_TRANSFER_COMPLETED]).pollfds,
        p.fd ≠ STDIN_FILENO)
    ∧ XferObj.oxfr ∈ (main cfgS 0 [env_stdin [97, 98, 99]]).in_flight
    ∧ out_inv (main cfgS 0 [env_stdin [97, 98, 99]])
    ∧ out_inv (wait_and_dispatch (env_usb [out_completion LIBUSB_TRANSFER_COMPLETED])
        (main cfgS 0 [env_stdin [97, 98, 99]])).2 :=
  ⟨by decide, by decide, by decide,
   (C1_out_single_in_flight cfgS 0 [env_stdin [97, 98, 99]]
      (env_usb [out_completion LIBUSB_TRANSFER_COMPLETED]) (by decide) (by decide)).1,
   (C1_out_single_in_flight cfgS 0 [env_stdin [97, 98, 99]]
      (env_usb [out_completion LIBUSB_TRANSFER_COMPLETED]) (by decide) (by decide)).2.1⟩

/-- C2: for every finite sequence of IN completions that all have status
Completed, with every `write` taking all the bytes offered (and, for the next
completion to be delivered at all, every resubmission but the last accepted),
the bytes `xfer_in_done` writes to the host output are exactly the
concatenation, in completion order, of the first `actual_length` bytes of each
completion's buffer. -/
theorem C2_in_bytes_in_order (cs : List InCompletion) (w : World)
    (halive : w.exit_status = none)
    (hst : ∀ c ∈ cs, c.xfr.status = LIBUSB_TRANSFER_COMPLETED)
    (hwr : ∀ c ∈ cs, (c.xfr.actual_length : Int) ≤ c.write_ret)
    (hsub : ∀ c ∈ cs.dropLast, 0 ≤ c.submit_ret) :
    host_output (deliver_in cs w).trace
      = host_output w.trace
        ++ (cs.map (fun c => c.xfr.buffer.take c.xfr.actual_length)).flatten := by
  induction cs generalizing w with
  | nil => simp [deliver_in]
  | cons c cs ih =>
    have hc := hst c (List.mem_cons_self _ _)
    have hw := hwr c (List.mem_cons_self _ _)
    have hout := xfer_in_done_completed_output c.write_ret c.submit_ret c.xfr w hc hw
    cases cs with
    | nil => simp [deliver_in, halive, hout]
    | cons c2 rest =>
      have hs : 0 ≤ c.submit_ret := hsub c (by simp [List.dropLast])
      have hal := xfer_in_done_completed_alive c.write_ret c.submit_ret c.xfr w hc hw hs
      have := ih (xfer_in_done c.write_ret c.submit_ret c.xfr w) (by rw [hal, halive])
        (fun x hx => hst x (List.mem_cons_of_mem _ hx))
        (fun x hx => hwr x (List.mem_cons_of_mem _ hx))
        (fun x hx => hsub x (by simp [List.dropLast] at hx ⊢; exact Or.inr hx))
      rw [deliver_in]
      simp only [halive, Option.isSome_none, Bool.false_eq_true, if_false]
      rw [this, hout]
      simp [List.append_assoc]

/-- C2 at three Completed completions with payload "xy": the host output
receives exactly "xyxyxy"; the same holds when the transport dispatches them
in a run of `main`, and the IN transfer is in flight again afterwards. -/
theorem C2_in_bytes_in_order_witness :
    host_output (deliver_in
        [⟨xfr_xy LIBUSB_TRANSFER_COMPLETED, 2, 0⟩, ⟨xfr_xy LIBUSB_TRANSFER_COMPLETED, 2, 0⟩,
         ⟨xfr_xy LIBUSB_TRANSFER_COMPLETED, 2, -1⟩] (start cfgS 0)).trace
      = [120, 121, 120, 121, 120, 121]
    ∧ host_output (main cfgS 0 scenarioC).trace = [120, 121, 120, 121, 120, 121]
    ∧ (main cfgS 0 scenarioC).in_flight = [XferObj.xfr] :=
  ⟨(C2_in_bytes_in_order
      [⟨xfr_xy LIBUSB_TRANSFER_COMPLETED, 2, 0⟩, ⟨xfr_xy LIBUSB_TRANSFER_COMPLETED, 2, 0⟩,
       ⟨xfr_xy LIBUSB_TRANSFER_COMPLETED, 2, -1⟩] (start cfgS 0)
      (by decide) (by decide) (by decide) (by decide)).trans (by decide),
   by decide, by decide⟩

/-- C3: for every IN completion whose status is Completed (with a full write)
or TimedOut, and whose resubmission is accepted, `xfer_in_done` does not end
the process and submits exactly one transfer, the object it was called with,
as its last action; for TimedOut it writes nothing to the host output.  Hence
exactly one IN transfer is in flight after the first submission and again
after every such completion the transport dispatches. -/
theorem C3_in_resubmitted (write_ret submit_ret : Int) (xfr : libusb_transfer) (w : World)
    (hst : (xfr.status = LIBUSB_TRANSFER_COMPLETED ∧ (xfr.actual_length : Int) ≤ write_ret)
            ∨ xfr.status = LIBUSB_TRANSFER_TIMED_OUT)
    (hsub : 0 ≤ submit_ret) :
    (xfer_in_done write_ret submit_ret xfr w).exit_status = w.exit_status
    ∧ (xfer_in_done write_ret submit_ret xfr w).in_flight = w.in_flight ++ [xfr.obj]
    ∧ (xfer_in_done write_ret submit_ret xfr w).trace
        = w.trace
          ++ (if xfr.status = LIBUSB_TRANSFER_COMPLETED
              then [Event.write STDOUT_FILENO (xfr.buffer.take xfr.actual_length) write_ret]
              else [])
          ++ [Event.submit xfr w.out_xfr_pending submit_ret]
    ∧ (xfr.status = LIBUSB_TRANSFER_TIMED_OUT →
        host_output (xfer_in_done write_ret submit_ret xfr w).trace = host_output w.trace)
    ∧ (∀ (cfg : Config) (r : Int), 0 ≤ r →
        (start cfg r).in_flight.count XferObj.xfr = 1 ∧ (start cfg r).exit_status = none)
    ∧ (∀ c : Completion, c.obj = XferObj.xfr → w.wf → w.in_flight.count XferObj.xfr = 1 →
        ((c.status = LIBUSB_TRANSFER_COMPLETED ∧ (c.actual_length : Int) ≤ c.write_ret)
          ∨ c.status = LIBUSB_TRANSFER_TIMED_OUT) →
        0 ≤ c.submit_ret →
        (complete c w).in_flight.count XferObj.xfr = 1
        ∧ (complete c w).exit_status = w.exit_status) := by
  have hns : ¬ submit_ret < 0 := not_lt.mpr hsub
  refine ⟨?_, ?_, ?_, ?_, ?_, ?_⟩
  · rcases hst with ⟨h, hw⟩ | h
    · exact xfer_in_done_completed_alive _ _ _ _ h hw hsub
    · simp [xfer_in_done, h, xfer_in_done_submit, libusb_submit_transfer, hns]
  · rcases hst with ⟨h, hw⟩ | h
    · have hw2 : ¬ write_ret < (xfr.actual_length : Int) := not_lt.mpr hw
      simp [xfer_in_done, h, hw2, xfer_in_done_submit, libusb_submit_transfer, hns, hsub, write]
    · simp [xfer_in_done, h, xfer_in_done_submit, libusb_submit_transfer, hns, hsub]
  · rcases hst with ⟨h, hw⟩ | h
    · have hw2 : ¬ write_ret < (xfr.actual_length : Int) := not_lt.mpr hw
      simp [xfer_in_done, h, hw2, xfer_in_done_submit, libusb_submit_transfer, hns, write]
    · simp [xfer_in_done, h, xfer_in_done_submit, libusb_submit_transfer, hns]
  · intro h
    simp [xfer_in_done, h, xfer_in_done_submit, libusb_submit_transfer, hns,
      host_output_append, host_output]
  · intro cfg r hr
    have hr2 : ¬ r < 0 := not_lt.mpr hr
    simp [start, libusb_submit_transfer, hr, hr2, libusb_fill_bulk_transfer,
      libusb_alloc_transfer]
  · intro c hobj hwf hcount hcst hcsub
    obtain ⟨h1, h2, h3, h4⟩ := hwf
    have hcs : ¬ c.submit_ret < 0 := not_lt.mpr hcsub
    have heq : complete c w
        = xfer_in_done c.write_ret c.submit_ret (fill_completed c w.xfr)
            { w with xfr := fill_completed c w.xfr,
                     in_flight := w.in_flight.erase XferObj.xfr } := by
      simp [complete, hobj, World.get, World.set, h3, fill_completed]
    have hmem : XferObj.xfr ∈ w.in_flight := List.count_pos_iff.mp (by omega)
    rw [heq]
    rcases hcst with ⟨h, hw⟩ | h
    · have hw2 : ¬ c.write_ret < (c.actual_length : Int) := not_lt.mpr hw
      simp [xfer_in_done, fill_completed, h, hw2, xfer_in_done_submit, libusb_submit_transfer,
        hcs, hcsub, write, h1, List.count_erase_self, hcount]
    · simp [xfer_in_done, fill_completed, h, xfer_in_done_submit, libusb_submit_transfer,
        hcs, hcsub, h1, List.count_erase_self, hcount]

/-- C3 at concrete inputs: a TimedOut IN completion on the state after
start-up writes nothing, and after the transport dispatches a Completed
completion with payload "xy" exactly one IN transfer is in flight. -/
theorem C3_in_resubmitted_witness :
    (((xfr_xy LIBUSB_TRANSFER_TIMED_OUT).status = LIBUSB_TRANSFER_COMPLETED
        ∧ ((xfr_xy LIBUSB_TRANSFER_TIMED_OUT).actual_length : Int) ≤ 0)
      ∨ (xfr_xy LIBUSB_TRANSFER_TIMED_OUT).status = LIBUSB_TRANSFER_TIMED_OUT)
    ∧ (0 : Int) ≤ 0
    ∧ host_output (xfer_in_done 0 0 (xfr_xy LIBUSB_TRANSFER_TIMED_OUT) (start cfgS 0)).trace
        = host_output (start cfgS 0).trace
    ∧ (complete in_completion_xy (start cfgS 0)).in_flight.count XferObj.xfr = 1 :=
  ⟨Or.inr rfl, by decide,
   (C3_in_resubmitted 0 0 (xfr_xy LIBUSB_TRANSFER_TIMED_OUT) (start cfgS 0) (Or.inr rfl)
      (by decide)).2.2.2.1 rfl,
   ((C3_in_resubmitted 0 0 (xfr_xy LIBUSB_TRANSFER_TIMED_OUT) (start cfgS 0) (Or.inr rfl)
      (by decide)).2.2.2.2.2 in_completion_xy rfl (start_frame cfgS 0).1 (by decide)
      (Or.inl ⟨rfl, by decide⟩) (by decide)).1⟩

/-- C4 (as amended): a Cancelled completion is absorbed on the OUT direction
only.  For every transfer with status Cancelled, `xfer_out_done` neither ends
the process nor prints anything; it only clears `out_xfr_pending`.
`xfer_in_done` has no case for Cancelled and treats it as any other unexpected
status: it prints "Unexpected status in xfer done: 3" and ends the process
with exit status 1, without writing or submitting.  The two cancellations
`main` requests after the loop are followed directly by the return of 0. -/
theorem C4_cancelled_out_absorbed_in_fatal (write_ret submit_ret : Int)
    (xfr : libusb_transfer) (w : World) (h : xfr.status = LIBUSB_TRANSFER_CANCELLED) :
    ((xfer_out_done xfr w).exit_status = w.exit_status
      ∧ (xfer_out_done xfr w).trace = w.trace
      ∧ (xfer_out_done xfr w).out_xfr_pending = 0
      ∧ (xfer_out_done xfr w).in_flight = w.in_flight)
    ∧ ((xfer_in_done write_ret submit_ret xfr w).exit_status = some 1
      ∧ (xfer_in_done write_ret submit_ret xfr w).trace
          = w.trace ++ [Event.diag "Unexpected status in xfer done: %d" [3],
                        Event.libusb_close, Event.libusb_exit]
      ∧ host_output (xfer_in_done write_ret submit_ret xfr w).trace = host_output w.trace
      ∧ (xfer_in_done write_ret submit_ret xfr w).in_flight = w.in_flight)
    ∧ ((after_loop w).trace
          = w.trace ++ [Event.cancel XferObj.oxfr, Event.cancel XferObj.xfr,
                        Event.libusb_close, Event.libusb_exit]
      ∧ (after_loop w).exit_status = some 0) := by
  simp [xfer_in_done, xfer_out_done, h, crash, exit, libusb_transfer_status.code,
    host_output_append, host_output, after_loop, libusb_cancel_transfer]

/-- C4 (as amended) at concrete inputs: a Cancelled completion of the OUT
transfer in flight after "abc" was submitted leaves the process alive with
`out_xfr_pending` back to 0; a Cancelled completion handed to `xfer_in_done`
after start-up ends the process with exit status 1. -/
theorem C4_cancelled_out_absorbed_in_fatal_witness :
    (oxfr_abc LIBUSB_TRANSFER_CANCELLED).status = LIBUSB_TRANSFER_CANCELLED
    ∧ (main cfgS 0 [env_stdin [97, 98, 99]]).out_xfr_pending = 1
    ∧ (xfer_out_done (oxfr_abc LIBUSB_TRANSFER_CANCELLED)
        (main cfgS 0 [env_stdin [97, 98, 99]])).exit_status = none
    ∧ (xfer_out_done (oxfr_abc LIBUSB_TRANSFER_CANCELLED)
        (main cfgS 0 [env_stdin [97, 98, 99]])).out_xfr_pending = 0
    ∧ (xfer_in_done 0 0 (oxfr_abc LIBUSB_TRANSFER_CANCELLED)
        (main cfgS 0 [env_stdin [97, 98, 99]])).exit_status = some 1 :=
  ⟨rfl, by decide,
   (C4_cancelled_out_absorbed_in_fatal 0 0 (oxfr_abc LIBUSB_TRANSFER_CANCELLED)
      (main cfgS 0 [env_stdin [97, 98, 99]]) rfl).1.1.trans (by decide),
   (C4_cancelled_out_absorbed_in_fatal 0 0 (oxfr_abc LIBUSB_TRANSFER_CANCELLED)
      (main cfgS 0 [env_stdin [97, 98, 99]]) rfl).1.2.2.1,
   (C4_cancelled_out_absorbed_in_fatal 0 0 (oxfr_abc LIBUSB_TRANSFER_CANCELLED)
      (main cfgS 0 [env_stdin [97, 98, 99]]) rfl).2.1.1⟩

/-- C4 as stated fails on the IN direction: called after start-up with an IN
transfer whose status is Cancelled, `xfer_in_done` prints the diagnostic
"Unexpected status in xfer done: 3" and ends the living process with exit
status 1. -/
theorem C4_in_cancelled_counterexample :
    (xfr_xy LIBUSB_TRANSFER_CANCELLED).status = LIBUSB_TRANSFER_CANCELLED
    ∧ (start cfgS 0).exit_status = none
    ∧ (xfer_in_done 2 0 (xfr_xy LIBUSB_TRANSFER_CANCELLED) (start cfgS 0)).exit_status
        = some 1
    ∧ (xfer_in_done 2 0 (xfr_xy LIBUSB_TRANSFER_CANCELLED) (start cfgS 0)).trace
        = (start cfgS 0).trace
          ++ [Event.diag "Unexpected status in xfer done: %d" [3],
              Event.libusb_close, Event.libusb_exit] :=
  ⟨rfl, rfl, rfl, rfl⟩

/-- C7: for every transfer with status NoDevice, both `xfer_in_done` and
`xfer_out_done` end the process with exit status 1; all they do before is
print "Device disconnected.": nothing is written to the host output, no
transfer is submitted, and `out_xfr_pending` keeps its value. -/
theorem C7_no_device_halts (write_ret submit_ret : Int) (xfr : libusb_transfer) (w : World)
    (h : xfr.status = LIBUSB_TRANSFER_NO_DEVICE) :
    ((xfer_in_done write_ret submit_ret xfr w).exit_status = some 1
      ∧ (xfer_in_done write_ret submit_ret xfr w).trace
          = w.trace ++ [Event.diag "Device disconnected." [], Event.libusb_close,
                        Event.libusb_exit]
      ∧ host_output (xfer_in_done write_ret submit_ret xfr w).trace = host_output w.trace
      ∧ (xfer_in_done write_ret submit_ret xfr w).in_flight = w.in_flight
      ∧ (xfer_in_done write_ret submit_ret xfr w).out_xfr_pending = w.out_xfr_pending)
    ∧ ((xfer_out_done xfr w).exit_status = some 1
      ∧ (xfer_out_done xfr w).trace
          = w.trace ++ [Event.diag "Device disconnected." [], Event.libusb_close,
                        Event.libusb_exit]
      ∧ host_output (xfer_out_done xfr w).trace = host_output w.trace
      ∧ (xfer_out_done xfr w).in_flight = w.in_flight
      ∧ (xfer_out_done xfr w).out_xfr_pending = w.out_xfr_pending) := by
  simp [xfer_in_done, xfer_out_done, h, crash, exit, host_output_append, host_output]

/-- C7 at concrete inputs: NoDevice on the IN transfer after start-up, and on
the OUT transfer while it is in flight with `out_xfr_pending` equal to 1. -/
theorem C7_no_device_halts_witness :
    (xfr_xy LIBUSB_TRANSFER_NO_DEVICE).status = LIBUSB_TRANSFER_NO_DEVICE
    ∧ (xfer_in_done 2 0 (xfr_xy LIBUSB_TRANSFER_NO_DEVICE) (start cfgS 0)).exit_status = some 1
    ∧ (xfer_out_done (oxfr_abc LIBUSB_TRANSFER_NO_DEVICE)
        (main cfgS 0 [env_stdin [97, 98, 99]])).exit_status = some 1
    ∧ (xfer_out_done (oxfr_abc LIBUSB_TRANSFER_NO_DEVICE)
        (main cfgS 0 [env_stdin [97, 98, 99]])).out_xfr_pending = 1 :=
  ⟨rfl,
   (C7_no_device_halts 2 0 (xfr_xy LIBUSB_TRANSFER_NO_DEVICE) (start cfgS 0) rfl).1.1,
   (C7_no_device_halts 0 0 (oxfr_abc LIBUSB_TRANSFER_NO_DEVICE)
      (main cfgS 0 [env_stdin [97, 98, 99]]) rfl).2.1,
   (C7_no_device_halts 0 0 (oxfr_abc LIBUSB_TRANSFER_NO_DEVICE)
      (main cfgS 0 [env_stdin [97, 98, 99]]) rfl).2.2.2.2.2.trans (by decide)⟩

/-- C8: for every OUT completion with status Completed, Cancelled or TimedOut,
`xfer_out_done` returns with `out_xfr_pending` equal to 0, submits nothing,
does not end the process, and prints the warning "transfer OUT timeout"
exactly when the status is TimedOut.  After a TimedOut completion the next
turn of the loop therefore registers the host input for reading, and when that
turn finds it readable and at end of stream the process exits with status 0. -/
theorem C8_out_done_clears_pending (xfr : libusb_transfer) (w : World)
    (h : xfr.status = LIBUSB_TRANSFER_COMPLETED ∨ xfr.status = LIBUSB_TRANSFER_CANCELLED
          ∨ xfr.status = LIBUSB_TRANSFER_TIMED_OUT) :
    (xfer_out_done xfr w).out_xfr_pending = 0
    ∧ (xfer_out_done xfr w).in_flight = w.in_flight
    ∧ (xfer_out_done xfr w).exit_status = w.exit_status
    ∧ (xfer_out_done xfr w).trace
        = w.trace ++ (if xfr.status = LIBUSB_TRANSFER_TIMED_OUT
                      then [Event.diag "transfer OUT timeout" []] else [])
    ∧ (∀ (cfg : Config) (e : IterEnv) (es : List IterEnv),
        xfr.status = LIBUSB_TRANSFER_TIMED_OUT → w.exit_status = none →
        e.completions = [] → 0 ≤ e.sel.n → STDIN_FILENO ∈ e.sel.readable →
        e.stdin = ReadResult.bytes [] →
        FD_ISSET STDIN_FILENO
            (build_fds (xfer_out_done xfr w).out_xfr_pending e.pollfds).rfds = true
        ∧ (main_loop cfg (e :: es) (xfer_out_done xfr w)).exit_status = some 0) := by
  refine ⟨?_, ?_, ?_, ?_, ?_⟩
  · rcases h with h | h | h <;> simp [xfer_out_done, h]
  · rcases h with h | h | h <;> simp [xfer_out_done, h]
  · rcases h with h | h | h <;> simp [xfer_out_done, h]
  · rcases h with h | h | h <;> simp [xfer_out_done, h]
  · intro cfg e es hto hal hcs hn hrd hin
    have hp : (xfer_out_done xfr w).out_xfr_pending = 0 := by simp [xfer_out_done, hto]
    have hx : (xfer_out_done xfr w).exit_status = none := by simp [xfer_out_done, hto, hal]
    have hreg : STDIN_FILENO ∈ (build_fds (xfer_out_done xfr w).out_xfr_pending e.pollfds).rfds :=
      (build_fds_stdin _ _ _).mpr (Or.inl ⟨rfl, hp⟩)
    have hn2 : ¬ e.sel.n < 0 := not_lt.mpr hn
    refine ⟨by simpa [FD_ISSET] using hreg, ?_⟩
    have hwd : wait_and_dispatch e (xfer_out_done xfr w)
        = ((build_fds (xfer_out_done xfr w).out_xfr_pending e.pollfds).rfds.filter
              (fun fd => decide (fd ∈ e.sel.readable)),
           { xfer_out_done xfr w with
             trace := (xfer_out_done xfr w).trace
               ++ [Event.select
                    ((build_fds (xfer_out_done xfr w).out_xfr_pending e.pollfds).maxfd + 1)
                    (build_fds (xfer_out_done xfr w).out_xfr_pending e.pollfds).rfds
                    (build_fds (xfer_out_done xfr w).out_xfr_pending e.pollfds).wfds
                    (if e.to_ ≠ 0 then some e.tv else none) e.sel.n] }) := by
      simp [wait_and_dispatch, select, select_set, hn2, hcs, libusb_handle_events_timeout]
    have hready : FD_ISSET STDIN_FILENO
        ((build_fds (xfer_out_done xfr w).out_xfr_pending e.pollfds).rfds.filter
              (fun fd => decide (fd ∈ e.sel.readable))) = true := by
      simp [FD_ISSET, List.mem_filter, hreg, hrd]
    rw [main_loop_eq, loop_body_eq, hwd]
    simp [hx, hready, pump, read, hin, after_loop, exit]

/-- C8 at a concrete run: "a" was read and submitted, the OUT transfer times
out, and the host input is then at end of stream; `out_xfr_pending` is 0 after
the callback, the next turn reads the end of stream, and the process exits
with status 0. -/
theorem C8_out_done_clears_pending_witness :
    ((oxfr_abc LIBUSB_TRANSFER_TIMED_OUT).status = LIBUSB_TRANSFER_COMPLETED
      ∨ (oxfr_abc LIBUSB_TRANSFER_TIMED_OUT).status = LIBUSB_TRANSFER_CANCELLED
      ∨ (oxfr_abc LIBUSB_TRANSFER_TIMED_OUT).status = LIBUSB_TRANSFER_TIMED_OUT)
    ∧ (main cfgS 0 [env_stdin [97]]).out_xfr_pending = 1
    ∧ (xfer_out_done (oxfr_abc LIBUSB_TRANSFER_TIMED_OUT)
        (main cfgS 0 [env_stdin [97]])).out_xfr_pending = 0
    ∧ (main_loop cfgS [env_stdin []]
        (xfer_out_done (oxfr_abc LIBUSB_TRANSFER_TIMED_OUT)
          (main cfgS 0 [env_stdin [97]]))).exit_status = some 0
    ∧ (main cfgS 0 scenarioB).exit_status = some 0 :=
  ⟨Or.inr (Or.inr rfl), by decide,
   (C8_out_done_clears_pending (oxfr_abc LIBUSB_TRANSFER_TIMED_OUT)
      (main cfgS 0 [env_stdin [97]]) (Or.inr (Or.inr rfl))).1,
   ((C8_out_done_clears_pending (oxfr_abc LIBUSB_TRANSFER_TIMED_OUT)
      (main cfgS 0 [env_stdin [97]]) (Or.inr (Or.inr rfl))).2.2.2.2
      cfgS (env_stdin []) [] rfl (by decide) rfl (by decide) (by decide) rfl).2,
   by decide⟩

/-- C9 (what the code does): when `select` fails with `EINTR` the loop body
does not go back to the wait.  The read set, which a failed `select` leaves as
it was registered, still holds the host input when `out_xfr_pending` is 0, so
the same turn reads the host input and submits an OUT transfer before any
further `select`.  A failure with any other error ends the process with exit
status 1 right after the `select`. -/
theorem C9_eintr_falls_through_to_read :
    (main cfgS 0 []).out_xfr_pending = 0
    ∧ env_eintr.sel.n = -1 ∧ env_eintr.sel.errno = EINTR
    ∧ (main cfgS 0 [env_eintr]).trace
        = (main cfgS 0 []).trace
          ++ [Event.select 6 [5, 0] [] none (-1),
              Event.read STDIN_FILENO 4 2 [1, 2],
              Event.submit
                { obj := XferObj.oxfr, endpoint := 1, buffer := [1, 2, 0, 0], length := 2,
                  callback := some Callback.xfer_out_done,
                  status := LIBUSB_TRANSFER_COMPLETED, actual_length := 0 } 1 0]
    ∧ (main cfgS 0 [env_eintr]).exit_status = none
    ∧ (∀ (cfg : Config) (e : IterEnv) (w : World),
        e.sel.n < 0 → e.sel.errno ≠ EINTR →
        (loop_body cfg e w).2.exit_status = some 1
        ∧ (loop_body cfg e w).2.trace
            = w.trace
              ++ [Event.select ((build_fds w.out_xfr_pending e.pollfds).maxfd + 1)
                    (build_fds w.out_xfr_pending e.pollfds).rfds
                    (build_fds w.out_xfr_pending e.pollfds).wfds
                    (if e.to_ ≠ 0 then some e.tv else none) e.sel.n,
                  Event.diag "select" [], Event.libusb_close, Event.libusb_exit]) := by
  refine ⟨by decide, by decide, by decide, by decide, by decide, ?_⟩
  intro cfg e w h1 h2
  simp [loop_body_eq, wait_and_dispatch, select, h1, h2, crash, exit]

/-- C5: in every run of `main`, either no read of the host input has returned
zero bytes, or exactly one has, it is followed by nothing but the cancellation
of the OUT transfer, the cancellation of the IN transfer, and the exit
handlers, and the exit status is 0.  With host input "abc" then end of stream
and no IN completion, exactly one OUT transfer is submitted, of length 3 with
payload "abc", and the exit status is 0. -/
theorem C5_eof_shutdown (cfg : Config) (submit_ret : Int) (script : List IterEnv) :
    ((∀ ev ∈ (main cfg submit_ret script).trace, is_eof_read ev = false)
      ∨ ((main cfg submit_ret script).exit_status = some 0
          ∧ ∃ pre, (∀ ev ∈ pre, is_eof_read ev = false)
              ∧ (main cfg submit_ret script).trace
                  = pre ++ [Event.read STDIN_FILENO cfg.oep.wMaxPacketSize 0 [],
                      Event.cancel XferObj.oxfr, Event.cancel XferObj.xfr,
                      Event.libusb_close, Event.libusb_exit]))
    ∧ ((main cfg submit_ret script).trace.filter is_eof_read).length ≤ 1
    ∧ (main cfgS 0 scenarioA).exit_status = some 0
    ∧ out_submitted (main cfgS 0 scenarioA).trace = [(1, 3, [97, 98, 99])] := by
  have hrun := main_run_ok cfg submit_ret script
  have hfil : ∀ t : List Event, (∀ ev ∈ t, is_eof_read ev = false) →
      t.filter is_eof_read = [] := by
    intro t ht
    exact List.filter_eq_nil_iff.mpr (fun ev hev => by simp [ht ev hev])
  refine ⟨?_, ?_, by decide, by decide⟩
  · rcases hrun with h | ⟨hx, pre, hpre, ht⟩
    · exact Or.inl h.1
    · exact Or.inr ⟨hx, pre, hpre.1, ht⟩
  · rcases hrun with h | ⟨hx, pre, hpre, ht⟩
    · rw [hfil _ h.1]; simp
    · rw [ht, List.filter_append, hfil _ hpre.1]
      simp [List.filter, is_eof_read]

/-- C6: in every run of `main`, the OUT transfers submitted are, in order, the
non-empty chunks the reads of the host input returned before the first read of
zero bytes: each is submitted to the OUT endpoint with the length and the
bytes of its chunk.  Every read is of the host input and asks for the OUT
endpoint's maximum packet size, and `out_xfr_pending` is 1 at each OUT
submission call.  The reads and submissions do happen.  When a run of the
bidirectional mode goes on for one more turn: if `out_xfr_pending` is 0 and
`select` reports the host input readable, the read set holds it after the
wait; and if the read set holds it and the process lives after the dispatch,
the turn reads up to one packet of the bytes the host input holds and, when
that chunk is not empty, sets `out_xfr_pending` to 1 and submits the OUT
object for exactly that chunk, so that the run's OUT transfers grow by that
one chunk.  With host input "abcdef" and 4-byte packets the OUT transfers are
"abcd" then "ef". -/
theorem C6_out_submissions_are_chunks (cfg : Config) (submit_ret : Int)
    (script : List IterEnv) :
    out_submitted (main cfg submit_ret script).trace
      = (chunks_read (main cfg submit_ret script).trace).map
          (fun bs => (cfg.oep.bEndpointAddress, bs.length, bs))
    ∧ (∀ fd count ret bs, Event.read fd count ret bs ∈ (main cfg submit_ret script).trace →
        fd = STDIN_FILENO ∧ count = cfg.oep.wMaxPacketSize ∧ bs.length ≤ count)
    ∧ (∀ x p r, Event.submit x p r ∈ (main cfg submit_ret script).trace →
        x.obj = XferObj.oxfr → p = 1)
    ∧ (∀ e : IterEnv, (main cfg submit_ret script).out_xfr_pending = 0 → 0 ≤ e.sel.n →
        STDIN_FILENO ∈ e.sel.readable →
        FD_ISSET STDIN_FILENO (wait_and_dispatch e (main cfg submit_ret script)).1 = true)
    ∧ (∀ (e : IterEnv) (bs : List Nat), cfg.nostdin = 0 →
        (wait_and_dispatch e (main cfg submit_ret script)).2.exit_status = none →
        FD_ISSET STDIN_FILENO (wait_and_dispatch e (main cfg submit_ret script)).1 = true →
        e.stdin = ReadResult.bytes bs → bs.take cfg.oep.wMaxPacketSize ≠ [] →
        (∃ t : libusb_transfer,
          (main cfg submit_ret (script ++ [e])).trace
            = (wait_and_dispatch e (main cfg submit_ret script)).2.trace
              ++ [Event.read STDIN_FILENO cfg.oep.wMaxPacketSize
                    ((bs.take cfg.oep.wMaxPacketSize).length : Int)
                    (bs.take cfg.oep.wMaxPacketSize),
                  Event.submit t 1 e.submit_ret]
              ++ (if e.submit_ret < 0 then
                    [Event.diag "libusb_submit_transfer (OUT): %s" [e.submit_ret],
                     Event.libusb_close, Event.libusb_exit]
                  else [])
          ∧ t.obj = XferObj.oxfr
          ∧ t.endpoint = cfg.oep.bEndpointAddress
          ∧ t.length = (bs.take cfg.oep.wMaxPacketSize).length
          ∧ t.buffer.take t.length = bs.take cfg.oep.wMaxPacketSize
          ∧ t.callback = some Callback.xfer_out_done)
        ∧ out_submitted (main cfg submit_ret (script ++ [e])).trace
            = out_submitted (main cfg submit_ret script).trace
              ++ [(cfg.oep.bEndpointAddress, (bs.take cfg.oep.wMaxPacketSize).length,
                   bs.take cfg.oep.wMaxPacketSize)]
        ∧ (main cfg submit_ret (script ++ [e])).out_xfr_pending = 1
        ∧ (0 ≤ e.submit_ret →
            (main cfg submit_ret (script ++ [e])).in_flight
              = (wait_and_dispatch e (main cfg submit_ret script)).2.in_flight
                ++ [XferObj.oxfr]))
    ∧ out_submitted (main cfgS 0 scenarioD).trace
        = [(1, 4, [97, 98, 99, 100]), (1, 2, [101, 102])]
    ∧ chunks_read (main cfgS 0 scenarioD).trace = [[97, 98, 99, 100], [101, 102]] := by
  refine ⟨?_, ?_, ?_, ?_, ?_, by decide, by decide⟩
  · rcases main_run_ok cfg submit_ret script with h | ⟨-, pre, hpre, ht⟩
    · exact h.2.1
    · rw [ht, out_submitted_append, chunks_read_append _ _ hpre.1, hpre.2.1]
      simp [out_submitted, chunks_read]
  · rcases main_run_ok cfg submit_ret script with h | ⟨-, pre, hpre, ht⟩
    · exact h.2.2.1
    · rw [ht]
      intro fd count ret bs hev
      rcases List.mem_append.mp hev with h | h
      · exact hpre.2.2.1 fd count ret bs h
      · simp at h
        obtain ⟨rfl, rfl, -, rfl⟩ := h
        simp
  · rcases main_run_ok cfg submit_ret script with h | ⟨-, pre, hpre, ht⟩
    · exact h.2.2.2
    · rw [ht]
      intro x p r hev
      rcases List.mem_append.mp hev with h | h
      · exact hpre.2.2.2 x p r h
      · simp at h
  · intro e hp hn hrd
    have hn2 : ¬ e.sel.n < 0 := not_lt.mpr hn
    have hreg : STDIN_FILENO
        ∈ (build_fds (main cfg submit_ret script).out_xfr_pending e.pollfds).rfds :=
      (build_fds_stdin _ _ _).mpr (Or.inl ⟨rfl, hp⟩)
    simp [wait_and_dispatch, select, select_set, hn2, FD_ISSET, List.mem_filter, hreg, hrd]
  · intro e bs hmode hx hr hin hg
    obtain ⟨hwf, ⟨evs, htr, hcb⟩, -, -, -, -⟩ :=
      wait_and_dispatch_frame e _ (main_wf cfg submit_ret script)
    have halive : ¬ (main cfg submit_ret script).exit_status.isSome = true := by
      intro hd
      have := wait_and_dispatch_dead e _ hd
      rw [hx] at this
      exact absurd this (by simp)
    obtain ⟨p1, p2, p3, p4, p5⟩ := pump_submits cfg e _ bs hwf hin hg
    have hlb : loop_body cfg e (main cfg submit_ret script)
        = pump cfg e (wait_and_dispatch e (main cfg submit_ret script)).2 := by
      rw [loop_body_eq]
      simp [hx, hr]
    have hmain : main cfg submit_ret (script ++ [e])
        = (pump cfg e (wait_and_dispatch e (main cfg submit_ret script)).2).2 := by
      rw [main_snoc cfg submit_ret script e hmode, main_loop_eq, if_neg halive, hlb, p5]
      simp [main_loop]
    have hsub0 : out_submitted (wait_and_dispatch e (main cfg submit_ret script)).2.trace
        = out_submitted (main cfg submit_ret script).trace := by
      have hz : out_submitted evs = [] := by
        have h1 := (trace_ok_callback cfg evs hcb).2.1
        have h2 : chunks_read evs = [] := by
          clear h1 htr
          induction evs with
          | nil => rfl
          | cons ev rest ih =>
            have hev := hcb ev (List.mem_cons_self _ _)
            have hrest := ih (fun x hx => hcb x (List.mem_cons_of_mem _ hx))
            cases ev <;> simp [is_callback_event] at hev <;> simp [chunks_read, hrest]
        rw [h1, h2]; rfl
      rw [htr, out_submitted_append]
      simp [out_submitted, hz]
    rw [hmain]
    exact ⟨p1, by rw [p2, hsub0], p3, p4⟩

/-- C6 at a concrete run: host input "abcdef" with 4-byte packets is submitted
as the two OUT transfers "abcd" and "ef", in that order. -/
theorem C6_out_submissions_are_chunks_witness :
    out_submitted (main cfgS 0 scenarioD).trace
      = [(1, 4, [97, 98, 99, 100]), (1, 2, [101, 102])]
    ∧ (main cfgS 0 scenarioD).exit_status = some 0 :=
  ⟨(C6_out_submissions_are_chunks cfgS 0 scenarioD).1.trans (by decide), by decide⟩

/-- C10: in every turn of the loop the `select` call receives `maxfd + 1` and
the two sets built from the current `out_xfr_pending` and poll set: the read
set holds the host input descriptor if `out_xfr_pending` is 0, and every poll
set descriptor whose events include `POLLIN`, and nothing else; the write set
holds exactly the poll set descriptors whose events include `POLLOUT`; and
`maxfd + 1` is greater than the host input descriptor and every poll set
descriptor. -/
theorem C10_readiness_sets (e : IterEnv) (w : World) :
    (∃ evs, (wait_and_dispatch e w).2.trace
        = w.trace ++ Event.select ((build_fds w.out_xfr_pending e.pollfds).maxfd + 1)
            (build_fds w.out_xfr_pending e.pollfds).rfds
            (build_fds w.out_xfr_pending e.pollfds).wfds
            (if e.to_ ≠ 0 then some e.tv else none) e.sel.n :: evs)
    ∧ (∀ fd, FD_ISSET fd (build_fds w.out_xfr_pending e.pollfds).rfds = true
        ↔ (fd = STDIN_FILENO ∧ w.out_xfr_pending = 0)
          ∨ ∃ p ∈ e.pollfds, p.fd = fd ∧ p.events &&& POLLIN ≠ 0)
    ∧ (∀ fd, FD_ISSET fd (build_fds w.out_xfr_pending e.pollfds).wfds = true
        ↔ ∃ p ∈ e.pollfds, p.fd = fd ∧ p.events &&& POLLOUT ≠ 0)
    ∧ STDIN_FILENO < (build_fds w.out_xfr_pending e.pollfds).maxfd + 1
    ∧ (∀ p ∈ e.pollfds, p.fd < (build_fds w.out_xfr_pending e.pollfds).maxfd + 1) := by
  have hmax := add_pollfds_maxfd e.pollfds (init_fds w.out_xfr_pending)
  refine ⟨?_, ?_, ?_, ?_, ?_⟩
  · unfold wait_and_dispatch select
    simp only []
    generalize (if e.to_ ≠ 0 then some e.tv else none) = tmo
    generalize build_fds w.out_xfr_pending e.pollfds = s
    by_cases hfail : e.sel.n < 0 ∧ e.sel.errno ≠ EINTR
    · rw [if_pos hfail]
      exact ⟨[Event.diag "select" [], Event.libusb_close, Event.libusb_exit],
        by simp [crash, exit]⟩
    · rw [if_neg hfail]
      obtain ⟨evs, hev⟩ := handle_events_trace_ext e.completions
        { w with trace := w.trace ++ [Event.select (s.maxfd + 1) s.rfds s.wfds tmo e.sel.n] }
      exact ⟨evs, by rw [hev]; simp⟩
  · intro fd
    simp only [FD_ISSET, decide_eq_true_eq]
    exact build_fds_stdin _ _ _
  · intro fd
    simp only [FD_ISSET, decide_eq_true_eq]
    rw [build_fds, add_pollfds_wfds]
    simp [init_fds, FD_ZERO]
  · have := hmax.1
    simp only [build_fds, init_fds] at this ⊢
    omega
  · intro p hp
    have := hmax.2 p hp
    simp only [build_fds] at this ⊢
    omega

end Usbcat
